/-
  Verification of the enrichment-orchestration core of uk-property-analyzer.

  This file gives a shallow embedding, in Lean 4, of the rate-limited
  PropertyData client (global serial queue, throttle retry loop), the
  in-memory TTL cache, the plot-size resolution cascade, the station
  proximity stage, and the Locrating attended-schools response parsing,
  together with theorems about the behaviour of those embeddings.

  Conventions of the embedding:
  - machine time is a natural number of milliseconds;
  - JavaScript numbers that the code only compares or passes around are
    modelled as rationals;
  - fallible operations return Except or Option;
  - external runtime primitives with no logic of their own in the repo
    (fetch, JSON.parse, Math trigonometry) are parameters of the model,
    while every decision made by repository code is embedded concretely.
-/
import Mathlib

namespace PropertyAnalyzer

/-! ## TTL cache (src/lib/cache.ts)

  TTLCache stores entries in a JavaScript `Map`; we model the map as an
  association list in insertion order, with `Map.set` replacing the value
  of an existing key in place and appending otherwise. -/

structure CacheEntry (V : Type) where
  value : V
  expiresAt : Nat
deriving DecidableEq, Repr

structure TTLCache (V : Type) where
  store : List (String × CacheEntry V)
deriving DecidableEq, Repr

namespace TTLCache

def empty {V : Type} : TTLCache V := ⟨[]⟩

/-- Raw Map.get-style lookup: the entry at a key, expiry ignored. -/
def findEntry {V : Type} (c : TTLCache V) (key : String) : Option (CacheEntry V) :=
  (c.store.find? (fun p => p.1 = key)).map (fun p => p.2)

/-- Models Map.set: replace in place when the key exists, append otherwise. -/
def setStore {V : Type} : List (String × CacheEntry V) → String → CacheEntry V →
    List (String × CacheEntry V)
  | [], key, e => [(key, e)]
  | p :: rest, key, e =>
      if p.1 = key then (key, e) :: rest else p :: setStore rest key e

/-- Models TTLCache.set(key, value, ttlSeconds): stores
    `{ value, expiresAt: Date.now() + ttlSeconds * 1000 }`, replacing any
    previous entry wholesale. -/
def set {V : Type} (c : TTLCache V) (now : Nat) (key : String) (value : V)
    (ttlSeconds : Nat) : TTLCache V :=
  ⟨setStore c.store key ⟨value, now + ttlSeconds * 1000⟩⟩

/-- Models TTLCache.delete(key). -/
def delete {V : Type} (c : TTLCache V) (key : String) : TTLCache V :=
  ⟨c.store.filter (fun p => ¬ p.1 = key)⟩

/-- Models TTLCache.get(key): absent key gives null; an entry with
    `Date.now() > entry.expiresAt` is deleted and gives null; otherwise the
    stored value is returned. The cache after the call is returned as well,
    since an expired read mutates the store. -/
def get {V : Type} (c : TTLCache V) (now : Nat) (key : String) :
    Option V × TTLCache V :=
  match c.findEntry key with
  | none => (none, c)
  | some e => if now > e.expiresAt then (none, c.delete key) else (some e.value, c)

end TTLCache

/-- TTLs (seconds) from the bottom of src/lib/cache.ts. -/
def TTL_PLOT_SIZE : Nat := 60 * 60 * 24 * 30

/-! ## Rate-limited PropertyData client (src/lib/propertydata/client.ts)

  The function enqueue chains every call onto one module-global promise. A task's
  callback runs once the previous queued task has settled (and not before
  the task was enqueued); it then reads `lastCallTime`, sleeps until the
  minimum gap has passed, stamps `lastCallTime`, and runs the fetch.
  dispatchSchedule computes the dispatch timestamps of the queued tasks:
  each entry of the queue is modelled by its enqueue (arrival) time and the
  duration of its fetch. The dispatch of a task is
  `max (max arrival prevSettled) (lastCall + minGap)` — exactly the
  `elapsed < MIN_GAP_MS` sleep of the source, which also covers a clock
  that reads earlier than `lastCallTime`. -/

def MIN_GAP_MS : Nat := 1200

/-- Time at which a task whose turn has come starts its fetch: it cannot
    start before it was enqueued, nor before the previous queued task
    settled, and it sleeps out the remainder of the minimum gap. -/
def nextDispatch (minGap lastCall prevEnd arrival : Nat) : Nat :=
  max (max arrival prevEnd) (lastCall + minGap)

def dispatchSchedule (minGap lastCall prevEnd : Nat) :
    List (Nat × Nat) → List Nat
  | [] => []
  | (arrival, dur) :: rest =>
      nextDispatch minGap lastCall prevEnd arrival ::
        dispatchSchedule minGap (nextDispatch minGap lastCall prevEnd arrival)
          (nextDispatch minGap lastCall prevEnd arrival + dur) rest

/-! ## Stable sorting

  `Array.prototype.sort` with a numeric comparator is a stable sort; its
  output is the unique stable sorted permutation, which insertion sort
  computes and which the kernel can evaluate. -/

def insertLe {α : Type} (le : α → α → Bool) (x : α) : List α → List α
  | [] => [x]
  | y :: ys => if le y x then y :: insertLe le x ys else x :: y :: ys

def stableSortBy {α : Type} (le : α → α → Bool) (l : List α) : List α :=
  l.foldl (fun acc x => insertLe le x acc) []

/-! ## PropertyData client errors and the retry loop
  (src/lib/propertydata/client.ts)

  PropertyDataError carries an optional upstream code and status.
  `String(x)` applied to the code field yields the code itself for a
  string code and the text `undefined` for an absent one. -/

structure PDError where
  message : String
  code : Option String := none
  status : Option String := none
deriving DecidableEq, Repr

def jsStringOfCode : Option String → String
  | some s => s
  | none => "undefined"

/-- The `PropertyDataError` produced by `singleFetch` when the per-call
    `AbortController` fires: message only, no code. -/
def timeoutError : PDError := { message := "PropertyData request timed out" }

/-- Models propertyDataGet: each attempt re-enters the global queue (one
    `enqueue(singleFetch ...)` per loop iteration); `attempts i` is the
    outcome of the i-th `singleFetch`. An attempt that fails with upstream
    code X14 and has retries left loops; any other failure is rethrown at
    once. The second component counts the attempts actually made. -/
def pdLoop {R : Type} (attempts : Nat → Except PDError R)
    (retriesOnThrottle : Nat) : Nat → Nat → Except PDError R × Nat
  | _, 0 =>
      (Except.error { message := "PropertyData request failed after retries" }, 0)
  | i, fuel + 1 =>
      match attempts i with
      | Except.ok r => (Except.ok r, i + 1)
      | Except.error e =>
          if jsStringOfCode e.code = "X14" ∧ i < retriesOnThrottle then
            pdLoop attempts retriesOnThrottle (i + 1) fuel
          else
            (Except.error e, i + 1)

def propertyDataGet {R : Type} (attempts : Nat → Except PDError R)
    (retriesOnThrottle : Nat) : Except PDError R × Nat :=
  pdLoop attempts retriesOnThrottle 0 (retriesOnThrottle + 1)

/-! ## Proximity stage (src/lib/utils/google-maps.ts and
  src/app/api/stations/route.ts) -/

structure Station where
  name : String
  lat : Int
  lng : Int
deriving DecidableEq, Repr

/-- The body of a Google Places nearby-search response. -/
structure PlacesResponse where
  status : String
  results : List Station
deriving DecidableEq, Repr

/-- Transport-level outcome of the nearby-search fetch. -/
inductive NearbyFetch where
  | transportError
  | httpError (status : Nat)
  | body (resp : PlacesResponse)
deriving DecidableEq, Repr

/-- Models findNearbyStations: null without an API key; null on a thrown fetch,
    a non-OK HTTP response, or a provider status other than OK and
    ZERO_RESULTS; the empty list on ZERO_RESULTS; otherwise the first
    `count` provider results. -/
def findNearbyStations (apiKey : Option String) (count : Nat)
    (fetch : NearbyFetch) : Option (List Station) :=
  match apiKey with
  | none => none
  | some _ =>
      match fetch with
      | NearbyFetch.transportError => none
      | NearbyFetch.httpError _ => none
      | NearbyFetch.body data =>
          if data.status = "ZERO_RESULTS" then some []
          else if data.status = "OK" then some (data.results.take count)
          else none

/-- Deduplication by exact name from the stations route: a `Set` of seen
    names, keeping the first occurrence of each name. -/
def dedupeByName (seen : List String) : List Station → List Station
  | [] => []
  | s :: rest =>
      if s.name ∈ seen then dedupeByName seen rest
      else s :: dedupeByName (s.name :: seen) rest

/-- The stations route pipeline for one category: dedupe by name, then
    truncate with `slice(0, keep)`. -/
def dedupeAndLimit (raw : List Station) (keep : Nat) : List Station :=
  (dedupeByName [] raw).take keep

/-- The stations route (`GET`) over-fetches 5 nearby stations per category
    and keeps at most 3 after deduplication. -/
def stationsStage (apiKey : Option String) (fetch : NearbyFetch) :
    Option (List Station) :=
  (findNearbyStations apiKey 5 fetch).map (fun raw => dedupeAndLimit raw 3)

/-! ## Plot-size resolution cascade (src/lib/propertydata/plot-size.ts)

  The cascade calls five PropertyData endpoints through the rate-limited
  client. The embedding abstracts one `propertyDataGet` invocation (with
  its internal throttle retries) into a single `Except` outcome supplied
  by a `PlotApi` record, and records every such invocation in a call
  trace, so that "a strategy was never invoked" is a statement about the
  trace. `haversineDistance` (floating-point trigonometry) is the `dist`
  member of `PlotApi`. -/

/-- Kernel-evaluable ASCII uppercase, as toUpperCase acts on these
    strings. -/
def jsToUpper (s : String) : String := String.mk (s.toList.map Char.toUpper)

/-- Kernel-evaluable ASCII lowercase. -/
def jsToLower (s : String) : String := String.mk (s.toList.map Char.toLower)

/-- Kernel-evaluable trim of leading and trailing whitespace. -/
def jsTrim (s : String) : String :=
  String.mk
    (((s.toList.dropWhile Char.isWhitespace).reverse.dropWhile
      Char.isWhitespace).reverse)

instance {ε α : Type} [DecidableEq ε] [DecidableEq α] :
    DecidableEq (Except ε α) := fun x y =>
  match x, y with
  | Except.ok a, Except.ok b =>
      if h : a = b then Decidable.isTrue (by rw [h])
      else Decidable.isFalse (fun hc => h (Except.ok.inj hc))
  | Except.ok _, Except.error _ =>
      Decidable.isFalse (fun hc => Except.noConfusion hc)
  | Except.error _, Except.ok _ =>
      Decidable.isFalse (fun hc => Except.noConfusion hc)
  | Except.error e, Except.error f =>
      if h : e = f then Decidable.isTrue (by rw [h])
      else Decidable.isFalse (fun hc => h (Except.error.inj hc))

/-- JavaScript string truthiness: the empty string is falsy. -/
def jsTruthyStr : Option String → Option String
  | some s => if s = "" then none else some s
  | none => none

/-- Models `door.match(/^\d+/)?.[0] || ''`. -/
def leadingDigits (s : String) : String :=
  String.mk (s.toList.takeWhile Char.isDigit)

/-- Models normalizePostcode: uppercase, strip whitespace, and re-insert
    the single space before the final three characters when long enough. -/
def normalizePostcode (p : String) : String :=
  let cleaned := String.mk ((jsToUpper p).toList.filter (fun c => ¬ c.isWhitespace))
  if cleaned.length ≥ 5 then
    String.mk (cleaned.toList.take (cleaned.length - 3)) ++ " " ++
      String.mk (cleaned.toList.drop (cleaned.length - 3))
  else cleaned

/-- Models `a.includes(b)`. -/
def containsSubstr (hay needle : String) : Bool :=
  (hay.toList.tails).any (fun t => needle.toList.isPrefixOf t)

/-- JavaScript regex word characters, `[A-Za-z0-9_]`. -/
def isWordChar (c : Char) : Bool := c.isAlphanum || c = '_'

/-- Consume `token` from the front of `l` (case-insensitively when `ci`),
    giving the remainder. -/
def tokenPrefixRest (ci : Bool) : List Char → List Char → Option (List Char)
  | [], l => some l
  | _ :: _, [] => none
  | t :: ts, c :: cs =>
      if (if ci then t.toLower = c.toLower else t = c) then
        tokenPrefixRest ci ts cs
      else none

/-- Does `token` (all word characters) match at the head of `l`, followed
    by a word boundary? -/
def tokenMatchesHere (ci : Bool) (token l : List Char) : Bool :=
  match tokenPrefixRest ci token l with
  | none => false
  | some [] => true
  | some (c :: _) => ¬ isWordChar c

def wbScan (ci : Bool) (token : List Char) : Option Char → List Char → Bool
  | _, [] => false
  | prev, c :: rest =>
      ((match prev with
        | none => true
        | some p => ¬ isWordChar p) && tokenMatchesHere ci token (c :: rest)) ||
      wbScan ci token (some c) rest

/-- Models `new RegExp("\\b" + token + "\\b", flags).test(s)` for a token
    made of word characters; an empty token leaves the bare pattern
    `\b\b`, which matches exactly when the string has any word character. -/
def regexWordTest (ci : Bool) (token s : String) : Bool :=
  if token.toList.isEmpty then s.toList.any isWordChar
  else wbScan ci token.toList none s.toList

/-- Models `numberToken.replace(/[^0-9A-Z]/g, "")`. -/
def keepDigitsUpper (s : String) : String :=
  String.mk (s.toList.filter (fun c => c.isDigit || (Char.ofNat 65 ≤ c ∧ c ≤ Char.ofNat 90)))

/-- Models addrIncludesNumberAndStreet: uppercase both, require the street
    as a substring, then (for a nonempty token) a case-insensitive
    word-bounded occurrence of the cleaned token. -/
def addrIncludesNumberAndStreet (address numberToken street : String) : Bool :=
  let a := jsToUpper address
  let st := jsToUpper street
  if ¬ containsSubstr a st then false
  else if numberToken = "" then true
  else regexWordTest true (keepDigitsUpper numberToken) a

/-- Models the plot_size field of a title record:
    `string | number | null | undefined`. The rational carried by `num`
    and `str` is the finite value that the number is, or that `Number(s)`
    parses (`none` for a non-finite result) — the numeric conversion
    itself is a JavaScript runtime primitive. -/
inductive PlotSizeField where
  | absent
  | num (v : Option ℚ)
  | str (v : Option ℚ)
  | other
deriving DecidableEq, Repr

def parsePlotSizeAcres : PlotSizeField → Option ℚ
  | PlotSizeField.absent => none
  | PlotSizeField.num v => v
  | PlotSizeField.str v => v
  | PlotSizeField.other => none

structure AMItem where
  uprn : Option String := none
  address : Option String := none
deriving DecidableEq, Repr

/-- Observed shapes of the data field of an address-match-uprn response:
    a bare array, an object with a matches array, or anything else. -/
inductive AMData where
  | arr (items : List AMItem)
  | obj (matchList : Option (List AMItem))
  | other
deriving DecidableEq, Repr

structure AMResponse where
  status : String
  code : Option String := none
  message : Option String := none
  data : Option AMData := none
  -- the source field is named matches, a reserved word here
  matchList : Option (List AMItem) := none
deriving DecidableEq, Repr

structure MatchRec where
  uprn : String
  address : Option String := none
deriving DecidableEq, Repr

/-- Models extractMatches: first a matches array inside the data object,
    then a top-level matches array, then the data field as a bare array
    (an empty array is truthy and stops the chain); items without a uprn
    are dropped, the uprn is stringified, non-string addresses dropped. -/
def extractMatches (resp : AMResponse) : List MatchRec :=
  let fromDataObj : Option (List AMItem) :=
    match resp.data with
    | some (AMData.obj (some l)) => some l
    | _ => none
  let fromDataArr : Option (List AMItem) :=
    match resp.data with
    | some (AMData.arr l) => some l
    | _ => none
  match fromDataObj.or (resp.matchList.or fromDataArr) with
  | none => []
  | some l => l.filterMap (fun item => item.uprn.map (fun u => MatchRec.mk u item.address))

/-- Fields of addressParts that the cascade reads (the upstream record
    also carries secondary, town, district and postcode, never read). -/
structure AddressParts where
  primary : Option String := none
  street : Option String := none
deriving DecidableEq, Repr

structure UprnsRow where
  uprn : Option String := none
  address : Option String := none
  addressParts : Option AddressParts := none
  lat : Option ℚ := none
  lng : Option ℚ := none
  latitude : Option ℚ := none
  longitude : Option ℚ := none
deriving DecidableEq, Repr

structure UprnsResponse where
  status : String
  data : Option (List UprnsRow) := none
deriving DecidableEq, Repr

structure UprnTitleEntry where
  title_number : Option String := none
deriving DecidableEq, Repr

structure UprnTitleData where
  uprn : Option String := none
  title_data : Option (List UprnTitleEntry) := none
deriving DecidableEq, Repr

structure UprnTitleResponse where
  status : String
  data : Option UprnTitleData := none
deriving DecidableEq, Repr

structure TitleData where
  plot_size : PlotSizeField := PlotSizeField.absent
deriving DecidableEq, Repr

structure TitleResponse where
  status : String
  data : Option TitleData := none
deriving DecidableEq, Repr

/-- The method tag of a PlotSizeResult: address-match-uprn,
    uprns-location or uprns-postcode. -/
inductive PlotMethod where
  | addressMatchUprn
  | uprnsLocation
  | uprnsPostcode
deriving DecidableEq, Repr

structure PlotSizeResult where
  plotSizeAcres : Option ℚ := none
  uprn : Option String := none
  titleNumber : Option String := none
  matchedAddress : Option String := none
  method : Option PlotMethod := none
deriving DecidableEq, Repr

def basePlotResult : PlotSizeResult := {}

structure Coordinates where
  latitude : ℚ
  longitude : ℚ
deriving DecidableEq, Repr

structure PlotInput where
  address : String
  postcode : Option String := none
  streetName : Option String := none
  doorNumber : Option String := none
  coordinates : Option Coordinates := none
  bustCache : Bool := false
deriving DecidableEq, Repr

/-- One logical propertyDataGet invocation made by the cascade. -/
inductive PDCall where
  | addressMatch (address : String)
  | uprnTitle (uprn : String)
  | title (titleNumber : String)
  | uprnsLocation (lat lng : ℚ)
  | uprnsPostcode (postcode : String)
deriving DecidableEq, Repr

/-- Is the call one of the two candidate-search (uprns) endpoints, i.e. a
    coordinate-radius or postal-area strategy call? -/
def PDCall.isUprnsSearch : PDCall → Bool
  | PDCall.uprnsLocation _ _ => true
  | PDCall.uprnsPostcode _ => true
  | _ => false

/-- Is the call a uprn-title candidate lookup? -/
def PDCall.isUprnTitle : PDCall → Bool
  | PDCall.uprnTitle _ => true
  | _ => false

/-- Upstream outcomes of the five endpoint invocations, plus the
    floating-point haversine distance as an oracle. -/
structure PlotApi where
  addressMatch : String → Except PDError AMResponse
  uprnTitle : String → Except PDError UprnTitleResponse
  title : String → Except PDError TitleResponse
  uprnsLocation : ℚ → ℚ → Except PDError UprnsResponse
  uprnsPostcode : String → Except PDError UprnsResponse
  dist : ℚ → ℚ → ℚ → ℚ → ℚ

/-- State threaded through one getPlotSizeAcres run: the plot-size cache
    and the chronological trace of PropertyData invocations. -/
structure PlotSt where
  cache : TTLCache PlotSizeResult
  calls : List PDCall
deriving DecidableEq, Repr

def recordCall (st : PlotSt) (c : PDCall) : PlotSt :=
  { st with calls := st.calls ++ [c] }

/-- Models uprnToTitle, value part: a non-success status, a missing or
    empty title_data array, or a falsy first title_number give null; the
    catch block maps every thrown PropertyDataError — the expected
    code 2101 (no title for this UPRN) and anything else alike — to null. -/
def uprnTitleValue (api : PlotApi) (uprn : String) : Option String :=
  match api.uprnTitle uprn with
  | Except.error _ => none
  | Except.ok ut =>
      if ut.status = "success" then
        match ut.data with
        | some d =>
            match d.title_data with
            | some (t :: _) =>
                match t.title_number with
                | some s => if s = "" then none else some s
                | none => none
            | _ => none
        | none => none
      else none

def uprnToTitle (api : PlotApi) (uprn : String) (st : PlotSt) :
    Option String × PlotSt :=
  (uprnTitleValue api uprn, recordCall st (PDCall.uprnTitle uprn))

/-- The value of one title-endpoint response: a non-success status gives
    null, otherwise parsePlotSizeAcres of `tr.data?.plot_size`. -/
def titleValueOf (tr : TitleResponse) : Option ℚ :=
  if tr.status = "success" then
    parsePlotSizeAcres (match tr.data with
      | some d => d.plot_size
      | none => PlotSizeField.absent)
  else none

/-- Models titleToPlotSize: a thrown client error propagates; otherwise
    the response value. -/
def titleToPlotSize (api : PlotApi) (titleNumber : String) (st : PlotSt) :
    Except PDError (Option ℚ) × PlotSt :=
  let st' := recordCall st (PDCall.title titleNumber)
  match api.title titleNumber with
  | Except.error e => (Except.error e, st')
  | Except.ok tr => (Except.ok (titleValueOf tr), st')

/-- Models buildCacheKey. Rational coordinates are rendered by numerator
    and denominator: an injective rendering per value, matching the role
    of JavaScript number-to-string interpolation in the key. -/
def ratKeyStr (q : ℚ) : String := toString q.num ++ "/" ++ toString q.den

def buildCacheKey (address : String) (postcode : Option String)
    (lat lng : Option ℚ) : String :=
  let pc := match jsTruthyStr postcode with
    | some p => normalizePostcode p
    | none => ""
  let latS := match lat with
    | some q => ratKeyStr q
    | none => ""
  let lngS := match lng with
    | some q => ratKeyStr q
    | none => ""
  "plotSize::" ++ jsToLower (jsTrim address) ++ "::" ++ pc ++ "::" ++ latS ++
    "::" ++ lngS

def plotCacheKey (input : PlotInput) : String :=
  buildCacheKey input.address input.postcode
    (input.coordinates.map (fun c => c.latitude))
    (input.coordinates.map (fun c => c.longitude))

/-- Models `(input.streetName || "").trim().toUpperCase()`. -/
def streetOf (input : PlotInput) : String :=
  jsToUpper (jsTrim (input.streetName.getD ""))

/-- Models `(input.doorNumber || "").trim()` and its leading-digit token. -/
def numTokenOf (input : PlotInput) : String :=
  leadingDigits (jsTrim (input.doorNumber.getD ""))

/-- Models pickNearest: keep rows with numeric `lat ?? latitude` and
    `lng ?? longitude`, sort stably by haversine distance ascending. -/
def pickNearest (dist : ℚ → ℚ → ℚ → ℚ → ℚ) (rows : List UprnsRow)
    (lat lng : ℚ) : List UprnsRow :=
  let withDist := rows.filterMap (fun r =>
    match r.lat.or r.latitude, r.lng.or r.longitude with
    | some rlat, some rlng => some (r, dist lat lng rlat rlng)
    | _, _ => none)
  (stableSortBy (fun a b => decide (a.2 ≤ b.2)) withDist).map (fun x => x.1)

/-- Strategy 2 exact partition: rows whose addressParts carry exactly the
    door number token as primary and the street (both sides uppercased);
    empty unless both street and token are nonempty. -/
def exactLocationMatches (rows : List UprnsRow) (street numToken : String) :
    List UprnsRow :=
  if street ≠ "" ∧ numToken ≠ "" then
    rows.filter (fun r =>
      match r.addressParts with
      | none => false
      | some parts =>
          (jsTrim (parts.primary.getD "") == numToken) &&
          (jsToUpper (parts.street.getD "") == street))
  else []

/-- Strategy 2 same-street partition. -/
def sameStreetLocationMatches (rows : List UprnsRow) (street : String) :
    List UprnsRow :=
  if street ≠ "" then
    rows.filter (fun r =>
      match r.addressParts with
      | none => false
      | some parts => jsToUpper (parts.street.getD "") == street)
  else []

/-- Strategy 3 exact partition (3a), keyed on the display address string. -/
def exactPostcodeMatches (rows : List UprnsRow) (street numToken : String) :
    List UprnsRow :=
  rows.filter (fun r =>
    let a := r.address.getD ""
    if a == "" then false
    else if street ≠ "" then addrIncludesNumberAndStreet a numToken street
    else if numToken ≠ "" then regexWordTest false numToken a
    else false)

/-- Strategy 3 same-street partition (3b), keyed on addressParts.street. -/
def sameStreetPostcodeMatches (rows : List UprnsRow) (street : String) :
    List UprnsRow :=
  if street ≠ "" then
    rows.filter (fun r =>
      (jsToUpper (match r.addressParts with
        | some parts => parts.street.getD ""
        | none => "") == street))
  else []

/-- Try candidate rows in order: a row without a uprn, or whose
    uprn-to-title lookup yields nothing, advances to the next row; found
    titles go through the title endpoint (whose thrown error propagates to
    the strategy level) and the first success is cached and returned. -/
def runCandidates (api : PlotApi) (now : Nat) (key : String)
    (method : PlotMethod) (mkAddr : Option String → Option String) :
    List UprnsRow → PlotSt → Except PDError (Option PlotSizeResult) × PlotSt
  | [], st => (Except.ok none, st)
  | row :: rest, st =>
      match row.uprn with
      | none => runCandidates api now key method mkAddr rest st
      | some u =>
          match uprnToTitle api u st with
          | (none, st') => runCandidates api now key method mkAddr rest st'
          | (some titleNumber, st') =>
              match titleToPlotSize api titleNumber st' with
              | (Except.error e, st'') => (Except.error e, st'')
              | (Except.ok acres, st'') =>
                  let result : PlotSizeResult :=
                    { plotSizeAcres := acres, uprn := some u,
                      titleNumber := some titleNumber,
                      matchedAddress := mkAddr row.address,
                      method := some method }
                  (Except.ok (some result),
                   { st'' with
                      cache := st''.cache.set now key result TTL_PLOT_SIZE })

/-- Strategy 1, the body of the first try block: address-match-uprn, first
    match, uprn-to-title, title-to-plot-size, tagged address-match-uprn. -/
def tryAddressMatch (api : PlotApi) (now : Nat) (key address : String)
    (st : PlotSt) : Except PDError (Option PlotSizeResult) × PlotSt :=
  let st0 := recordCall st (PDCall.addressMatch address)
  match api.addressMatch address with
  | Except.error e => (Except.error e, st0)
  | Except.ok am =>
      if am.status = "success" then
        match extractMatches am with
        | [] => (Except.ok none, st0)
        | m :: _ =>
            match uprnToTitle api m.uprn st0 with
            | (none, st1) => (Except.ok none, st1)
            | (some titleNumber, st1) =>
                match titleToPlotSize api titleNumber st1 with
                | (Except.error e, st2) => (Except.error e, st2)
                | (Except.ok acres, st2) =>
                    let result : PlotSizeResult :=
                      { plotSizeAcres := acres, uprn := some m.uprn,
                        titleNumber := some titleNumber,
                        matchedAddress := jsTruthyStr m.address,
                        method := some PlotMethod.addressMatchUprn }
                    (Except.ok (some result),
                     { st2 with
                        cache := st2.cache.set now key result TTL_PLOT_SIZE })
      else (Except.ok none, st0)

/-- Strategy 2, the body of the second try block: uprns by location; an
    exact door+street row is tried alone and tagged address-match-uprn;
    otherwise up to three same-street rows, or up to three
    distance-ordered rows when no same-street row exists, tagged
    uprns-location. -/
def tryLocation (api : PlotApi) (now : Nat) (key : String)
    (input : PlotInput) (lat lng : ℚ) (st : PlotSt) :
    Except PDError (Option PlotSizeResult) × PlotSt :=
  let st0 := recordCall st (PDCall.uprnsLocation lat lng)
  match api.uprnsLocation lat lng with
  | Except.error e => (Except.error e, st0)
  | Except.ok u =>
      if u.status = "success" then
        match u.data with
        | some rows =>
            if rows.isEmpty then (Except.ok none, st0)
            else
              let street := streetOf input
              let numToken := numTokenOf input
              let exact := exactLocationMatches rows street numToken
              match runCandidates api now key PlotMethod.addressMatchUprn
                  (fun a => a) (exact.take 1) st0 with
              | (Except.error e, st1) => (Except.error e, st1)
              | (Except.ok (some r), st1) => (Except.ok (some r), st1)
              | (Except.ok none, st1) =>
                  let sameStreet := sameStreetLocationMatches rows street
                  let ordered := pickNearest api.dist rows lat lng
                  let fallback :=
                    (if sameStreet.isEmpty then ordered else sameStreet).take 3
                  runCandidates api now key PlotMethod.uprnsLocation
                    (fun a => a) fallback st1
        | none => (Except.ok none, st0)
      else (Except.ok none, st0)

/-- Strategy 3, the body of the third try block: uprns by strict postcode;
    an exact row (3a) is tried alone and tagged address-match-uprn;
    otherwise up to three same-street rows, or up to three rows in
    provider order, tagged uprns-postcode. -/
def tryPostcode (api : PlotApi) (now : Nat) (key : String)
    (input : PlotInput) (pcRaw : String) (st : PlotSt) :
    Except PDError (Option PlotSizeResult) × PlotSt :=
  let postcode := normalizePostcode pcRaw
  let st0 := recordCall st (PDCall.uprnsPostcode postcode)
  match api.uprnsPostcode postcode with
  | Except.error e => (Except.error e, st0)
  | Except.ok u =>
      if u.status = "success" then
        match u.data with
        | some rows =>
            if rows.isEmpty then (Except.ok none, st0)
            else
              let street := streetOf input
              let numToken := numTokenOf input
              let exact := exactPostcodeMatches rows street numToken
              match runCandidates api now key PlotMethod.addressMatchUprn
                  jsTruthyStr (exact.take 1) st0 with
              | (Except.error e, st1) => (Except.error e, st1)
              | (Except.ok (some r), st1) => (Except.ok (some r), st1)
              | (Except.ok none, st1) =>
                  let ss := sameStreetPostcodeMatches rows street
                  let fallback := (if ss.isEmpty then rows else ss).take 3
                  runCandidates api now key PlotMethod.uprnsPostcode
                    jsTruthyStr fallback st1
        | none => (Except.ok none, st0)
      else (Except.ok none, st0)

/-- The catch block wrapped around strategies 2 and 3: any thrown error
    is swallowed (logged only) and the cascade falls through. -/
def catchStrategy (res : Except PDError (Option PlotSizeResult) × PlotSt) :
    Option PlotSizeResult × PlotSt :=
  match res with
  | (Except.ok r, st) => (r, st)
  | (Except.error _, st) => (none, st)

/-- Strategy 2 guarded by `if (input.coordinates)` and its catch. -/
def strategyStep2 (api : PlotApi) (now : Nat) (key : String)
    (input : PlotInput) (st : PlotSt) : Option PlotSizeResult × PlotSt :=
  match input.coordinates with
  | some c => catchStrategy (tryLocation api now key input c.latitude c.longitude st)
  | none => (none, st)

/-- Strategy 3 guarded by `if (input.postcode)` and its catch. -/
def strategyStep3 (api : PlotApi) (now : Nat) (key : String)
    (input : PlotInput) (st : PlotSt) : Option PlotSizeResult × PlotSt :=
  match jsTruthyStr input.postcode with
  | some p => catchStrategy (tryPostcode api now key input p st)
  | none => (none, st)

/-- Strategies 2 and 3 with their catch blocks, then the cached all-null
    base result. -/
def plotFallbacks (api : PlotApi) (now : Nat) (key : String)
    (input : PlotInput) (st : PlotSt) : Except PDError PlotSizeResult × PlotSt :=
  match strategyStep2 api now key input st with
  | (some r, st2) => (Except.ok r, st2)
  | (none, st2) =>
      match strategyStep3 api now key input st2 with
      | (some r, st3) => (Except.ok r, st3)
      | (none, st3) =>
          (Except.ok basePlotResult,
           { st3 with
              cache := st3.cache.set now key basePlotResult TTL_PLOT_SIZE })

/-- Models getPlotSizeAcres: build the cache key; with the bust flag,
    delete the key before reading; a cache hit returns at once with no
    provider call; then strategy 1, whose caught error is rethrown only
    when `String(e.code)` equals the key-missing message, then the
    fallback strategies. -/
def getPlotSizeAcres (api : PlotApi) (now : Nat)
    (cache0 : TTLCache PlotSizeResult) (input : PlotInput) :
    Except PDError PlotSizeResult × PlotSt :=
  let key := plotCacheKey input
  let cache1 := if input.bustCache then cache0.delete key else cache0
  match TTLCache.get cache1 now key with
  | (some v, cache2) => (Except.ok v, ⟨cache2, []⟩)
  | (none, cache2) =>
      match tryAddressMatch api now key input.address ⟨cache2, []⟩ with
      | (Except.ok (some r), st) => (Except.ok r, st)
      | (Except.ok none, st) => plotFallbacks api now key input st
      | (Except.error e, st) =>
          if jsStringOfCode e.code = "PropertyData API key is not configured" then
            (Except.error e, st)
          else plotFallbacks api now key input st

/-! ## Attended-schools response parsing (src/lib/scraper/locrating.ts)

  The captured body is a JSON envelope whose field d holds a code string
  of the shape

    showAttendedSchoolsData(<q>AreaName<q>, <q>[primaryJSON]<q>, <q>[secondaryJSON]<q>)

  where <q> is a single-quote character. The code extracts the three
  arguments with the regex

    showAttendedSchoolsData\s*\(\s*<q>([^<q>]+)<q>\s*,\s*<q>(\[[\s\S]*?\])<q>\s*,\s*<q>(\[[\s\S]*?\])<q>\s*\)

  which `matchShowAttended` implements exactly: leftmost starting
  position, a greedy single-quote-free first group, and two lazy
  bracketed groups with full backtracking across the continuation.
  `JSON.parse` itself (of the envelope and of the two array literals) is a
  runtime primitive and is a parameter of `parseAttendedSchoolsResponse`:
  the envelope decoder yields the d string when the body parses to an
  object with a usable (truthy string) d, and the array decoder yields the
  record list when its argument parses to an array. -/

/-- The single-quote character that delimits the three arguments. -/
def squote : Char := Char.ofNat 39

inductive SchoolPhase where
  | primary
  | secondary
deriving DecidableEq, Repr

/-- The fields of one raw school record that parseAttendedSchool reads
    (`raw.School` nested object, rating code as a string). -/
structure RawSchoolInner where
  Name : Option String := none
  OfstedRatingNumber : Option String := none
  AdmissionsPolicy : Option String := none
  Lat : Option ℚ := none
  Lng : Option ℚ := none
  LocratingRatingNumber : Option String := none
deriving DecidableEq, Repr

structure RawAttended where
  Urn : Option String := none
  Percentage : Option ℚ := none
  School : Option RawSchoolInner := none
deriving DecidableEq, Repr

structure AttendedSchool where
  urn : String
  name : String
  phase : SchoolPhase
  percentage : ℚ
  ofstedRating : Option String
  ofstedRatingNumber : Option Int
  admissionsPolicy : String
  isGrammar : Bool
  lat : ℚ
  lng : ℚ
  locratingRatingNumber : String
deriving DecidableEq, Repr

/-- The fixed four-value Ofsted rating table OFSTED_RATINGS. -/
def OFSTED_RATINGS : List (String × String) :=
  [("1", "Outstanding"), ("2", "Good"), ("3", "Requires Improvement"),
   ("4", "Inadequate")]

def ofstedLookup (k : String) : Option String :=
  (OFSTED_RATINGS.find? (fun p => p.1 == k)).map (fun p => p.2)

/-- Models `s || d` for strings: the empty string falls back to d. -/
def jsOrStr (o : Option String) (d : String) : String :=
  match o with
  | some s => if s = "" then d else s
  | none => d

/-- Models `parseInt(s, 10)`: skip whitespace, optional sign, leading
    decimal digits; no digit gives NaN, modelled as none. -/
def jsParseIntDec (s : String) : Option Int :=
  match s.toList.dropWhile Char.isWhitespace with
  | '-' :: rest => (leadingDigitsVal rest).map (fun n => -(n : Int))
  | '+' :: rest => (leadingDigitsVal rest).map (fun n => (n : Int))
  | l => (leadingDigitsVal l).map (fun n => (n : Int))
where
  leadingDigitsVal (l : List Char) : Option Nat :=
    let ds := l.takeWhile Char.isDigit
    if ds.isEmpty then none
    else some (ds.foldl (fun acc c => acc * 10 + (c.toNat - 48)) 0)

/-- Models parseAttendedSchool. `|| 0` on a number equals getD 0 (zero is
    its own fallback; a non-finite value is modelled as none); the rating
    code is used only when truthy; parseInt of a non-numeric code (NaN) is
    modelled as none. -/
def parseAttendedSchool (raw : RawAttended) (phase : SchoolPhase) :
    AttendedSchool :=
  let school := raw.School
  let ofstedNum := jsTruthyStr (school.bind (fun sc => sc.OfstedRatingNumber))
  { urn := jsOrStr raw.Urn "",
    name := jsOrStr (school.bind (fun sc => sc.Name)) "Unknown",
    phase := phase,
    percentage := raw.Percentage.getD 0,
    ofstedRating := match ofstedNum with
      | some k => ofstedLookup k
      | none => none,
    ofstedRatingNumber := match ofstedNum with
      | some k => jsParseIntDec k
      | none => none,
    admissionsPolicy := jsOrStr (school.bind (fun sc => sc.AdmissionsPolicy)) "",
    isGrammar := school.bind (fun sc => sc.AdmissionsPolicy) == some "selective",
    lat := (school.bind (fun sc => sc.Lat)).getD 0,
    lng := (school.bind (fun sc => sc.Lng)).getD 0,
    locratingRatingNumber :=
      jsOrStr (school.bind (fun sc => sc.LocratingRatingNumber)) "0" }

/-- Models `.sort((a, b) => b.percentage - a.percentage)`: the stable sort
    by percentage descending. -/
def sortByPercentageDesc (l : List AttendedSchool) : List AttendedSchool :=
  stableSortBy (fun a b => decide (b.percentage ≤ a.percentage)) l

/-- Consume a literal from the front, yielding the remainder. -/
def expectLit : List Char → List Char → Option (List Char)
  | [], l => some l
  | _ :: _, [] => none
  | c :: cs, x :: xs => if x = c then expectLit cs xs else none

def skipWs (l : List Char) : List Char := l.dropWhile Char.isWhitespace

/-- All ways to split off a prefix that ends at a right bracket, shortest
    first: the candidate stops of a lazy `[\s\S]*?` before a literal
    right bracket. -/
def rbSplits : List Char → List (List Char × List Char)
  | [] => []
  | c :: rest =>
      let tail := (rbSplits rest).map (fun p => (c :: p.1, p.2))
      if c = ']' then ([c], rest) :: tail else tail

def firstSome {α β : Type} (f : α → Option β) : List α → Option β
  | [] => none
  | x :: xs =>
      match f x with
      | some b => some b
      | none => firstSome f xs

/-- After the third group: closing quote, optional whitespace, and the
    final right parenthesis. -/
def matchTail3 (l : List Char) : Option Unit :=
  match l with
  | c :: rest =>
      if c = squote then
        match skipWs rest with
        | c2 :: _ => if c2 = ')' then some () else none
        | [] => none
      else none
  | [] => none

/-- The third capture group: a bracketed literal, lazily extended until
    the tail matches. -/
def matchGroup3 (l : List Char) : Option (List Char) :=
  match l with
  | c :: rest =>
      if c = '[' then
        firstSome (fun p => (matchTail3 p.2).map (fun _ => c :: p.1))
          (rbSplits rest)
      else none
  | [] => none

/-- Between groups two and three: closing quote, comma with optional
    whitespace, opening quote. -/
def matchSep (l : List Char) : Option (List Char) :=
  match l with
  | c :: rest =>
      if c = squote then
        match skipWs rest with
        | c2 :: rest2 =>
            if c2 = ',' then
              match skipWs rest2 with
              | c3 :: rest3 => if c3 = squote then some rest3 else none
              | [] => none
            else none
        | [] => none
      else none
  | [] => none

/-- The second and third capture groups with proper backtracking: each
    candidate stop of the lazy second group is kept only if the
    separator, the third group and the tail all match after it. -/
def matchGroup23 (l : List Char) : Option (List Char × List Char) :=
  match l with
  | c :: rest =>
      if c = '[' then
        firstSome (fun p =>
          match matchSep p.2 with
          | some rest2 => (matchGroup3 rest2).map (fun g3 => (c :: p.1, g3))
          | none => none) (rbSplits rest)
      else none
  | [] => none

/-- Match the full call signature at this exact position. -/
def matchAt (l : List Char) : Option (String × String × String) :=
  match expectLit "showAttendedSchoolsData".toList l with
  | none => none
  | some l1 =>
      match skipWs l1 with
      | c :: l2 =>
          if c = '(' then
            match skipWs l2 with
            | c2 :: l3 =>
                if c2 = squote then
                  let g1 := l3.takeWhile (fun ch => ¬ ch = squote)
                  let l4 := l3.drop g1.length
                  if g1.isEmpty then none
                  else
                    match l4 with
                    | _ :: l5 =>
                        match skipWs l5 with
                        | c4 :: l6 =>
                            if c4 = ',' then
                              match skipWs l6 with
                              | c5 :: l7 =>
                                  if c5 = squote then
                                    match matchGroup23 l7 with
                                    | some (g2, g3) =>
                                        some (String.mk g1, String.mk g2,
                                          String.mk g3)
                                    | none => none
                                  else none
                              | [] => none
                            else none
                        | [] => none
                    | [] => none
                else none
            | [] => none
          else none
      | [] => none

/-- The regex applied with String.prototype.match: the leftmost starting
    position at which the pattern matches wins. -/
def matchShowAttended (s : String) : Option (String × String × String) :=
  firstSome matchAt s.toList.tails

structure AttendedParsed where
  areaName : String
  primarySchools : List AttendedSchool
  secondarySchools : List AttendedSchool
deriving DecidableEq, Repr

/-- Models parseAttendedSchoolsResponse. `envelope` stands for
    JSON.parse of the body plus the d-field access and its truthiness
    check; `decodeArr` stands for JSON.parse of one embedded array
    literal (none models a parse throw or a non-array, which the catch
    turns into a null result). -/
def parseAttendedSchoolsResponse (envelope : String → Option String)
    (decodeArr : String → Option (List RawAttended))
    (responseBody : String) : Option AttendedParsed :=
  match envelope responseBody with
  | none => none
  | some jsCode =>
      match matchShowAttended jsCode with
      | none => none
      | some (areaName, p2, p3) =>
          match decodeArr p2, decodeArr p3 with
          | some primaryRaw, some secondaryRaw =>
              some { areaName := areaName,
                     primarySchools := sortByPercentageDesc
                       (primaryRaw.map
                         (fun r => parseAttendedSchool r SchoolPhase.primary)),
                     secondarySchools := sortByPercentageDesc
                       (secondaryRaw.map
                         (fun r => parseAttendedSchool r SchoolPhase.secondary)) }
          | _, _ => none

end PropertyAnalyzer

namespace PropertyAnalyzer

/-- Every consecutive pair of dispatch timestamps is at least `minGap`
    apart (helper, proved for every queue state). -/
theorem dispatchSchedule_chain (minGap : Nat) :
    ∀ (lastCall prevEnd : Nat) (tasks : List (Nat × Nat)),
      List.Chain' (fun t u => t + minGap ≤ u)
        (dispatchSchedule minGap lastCall prevEnd tasks) := by
  intro lastCall prevEnd tasks
  induction tasks generalizing lastCall prevEnd with
  | nil => simp [dispatchSchedule]
  | cons task rest ih =>
      obtain ⟨arrival, dur⟩ := task
      simp only [dispatchSchedule]
      rcases rest with _ | ⟨⟨a2, d2⟩, rest2⟩
      · simp [dispatchSchedule]
      · exact List.Chain'.cons (Nat.le_max_right _ _) (ih _ _)

theorem dispatchSchedule_length (minGap : Nat) :
    ∀ (lastCall prevEnd : Nat) (tasks : List (Nat × Nat)),
      (dispatchSchedule minGap lastCall prevEnd tasks).length = tasks.length := by
  intro lastCall prevEnd tasks
  induction tasks generalizing lastCall prevEnd with
  | nil => simp [dispatchSchedule]
  | cons task rest ih =>
      obtain ⟨arrival, dur⟩ := task
      simp [dispatchSchedule, ih]

/-- C1: calls through the rate-limited PropertyData client are dispatched
    in queue (FIFO) order — the i-th dispatch timestamp belongs to the
    i-th queued call, every queued call is dispatched exactly once, the
    timestamps strictly increase along the queue — and every pair of
    consecutive dispatches is separated by at least MIN_GAP_MS = 1200 ms,
    whatever logical request each call belongs to and whatever the initial
    lastCallTime and pending-task state. -/
theorem C1_queue_fifo_min_gap (lastCall prevEnd : Nat)
    (tasks : List (Nat × Nat)) :
    (dispatchSchedule MIN_GAP_MS lastCall prevEnd tasks).length = tasks.length ∧
    List.Chain' (fun t u => t + MIN_GAP_MS ≤ u)
      (dispatchSchedule MIN_GAP_MS lastCall prevEnd tasks) ∧
    List.Chain' (fun t u => t < u)
      (dispatchSchedule MIN_GAP_MS lastCall prevEnd tasks) := by
  refine ⟨dispatchSchedule_length _ _ _ _, dispatchSchedule_chain _ _ _ _, ?_⟩
  refine (dispatchSchedule_chain MIN_GAP_MS lastCall prevEnd tasks).imp ?_
  intro a b h
  have : 0 < MIN_GAP_MS := by norm_num [MIN_GAP_MS]
  omega

/-! ### TTL cache theorems -/

theorem setStore_findEntry {V : Type} :
    ∀ (s : List (String × CacheEntry V)) (k : String) (e : CacheEntry V),
      (TTLCache.mk (TTLCache.setStore s k e)).findEntry k = some e := by
  intro s k e
  induction s with
  | nil => simp [TTLCache.setStore, TTLCache.findEntry, List.find?]
  | cons p rest ih =>
      by_cases hp : p.1 = k
      · simp [TTLCache.setStore, hp, TTLCache.findEntry, List.find?]
      · simpa [TTLCache.setStore, hp, TTLCache.findEntry, List.find?] using ih

theorem set_findEntry {V : Type} (c : TTLCache V) (now : Nat) (k : String)
    (v : V) (ttl : Nat) :
    (c.set now k v ttl).findEntry k = some ⟨v, now + ttl * 1000⟩ :=
  setStore_findEntry c.store k ⟨v, now + ttl * 1000⟩

/-- C3: set(k, v, ttl) followed by an immediate get(k) returns exactly v;
    a get(k) strictly after the expiry instant now + ttl seconds returns
    absence; and a second set on the same key replaces the stored entry
    wholesale — the entry afterwards is exactly the new value with the new
    expiry, with no trace of the previous value. -/
theorem C3_ttl_cache_set_get {V : Type} (c : TTLCache V) (now now2 : Nat)
    (k : String) (v v2 : V) (ttl ttl2 : Nat)
    (hexp : now + ttl * 1000 < now2) :
    ((c.set now k v ttl).get now k).1 = some v ∧
    ((c.set now k v ttl).get now2 k).1 = none ∧
    ((c.set now k v ttl).set now2 k v2 ttl2).findEntry k =
      some ⟨v2, now2 + ttl2 * 1000⟩ := by
  refine ⟨?_, ?_, set_findEntry _ _ _ _ _⟩
  · rw [TTLCache.get, set_findEntry]
    simp
  · rw [TTLCache.get, set_findEntry]
    simp [hexp]

/-- Witness for C3 at concrete inputs. -/
theorem C3_ttl_cache_set_get_witness :
    ((TTLCache.empty.set 0 "k" (5 : Nat) 1).get 0 "k").1 = some 5 ∧
    ((TTLCache.empty.set 0 "k" (5 : Nat) 1).get 1001 "k").1 = none ∧
    (((TTLCache.empty.set 0 "k" (5 : Nat) 1)).set 1001 "k" 7 2).findEntry "k" =
      some ⟨7, 1001 + 2 * 1000⟩ :=
  C3_ttl_cache_set_get TTLCache.empty 0 1001 "k" 5 7 1 2 (by norm_num)

/-! ### Retry-loop theorems -/

theorem pdLoop_le {R : Type} (attempts : Nat → Except PDError R)
    (retries : Nat) :
    ∀ (fuel i : Nat) (out : Except PDError R) (n : Nat),
      pdLoop attempts retries i fuel = (out, n) → n ≤ i + fuel := by
  intro fuel
  induction fuel with
  | zero =>
      intro i out n h
      simp [pdLoop] at h
      omega
  | succ fuel ih =>
      intro i out n h
      rw [pdLoop] at h
      split at h
      · cases h
        omega
      · split at h
        · have := ih (i + 1) out n h
          omega
        · cases h
          omega

theorem pdLoop_prior_throttle {R : Type} (attempts : Nat → Except PDError R)
    (retries : Nat) :
    ∀ (fuel i : Nat) (out : Except PDError R) (n : Nat),
      pdLoop attempts retries i fuel = (out, n) →
      ∀ j, i ≤ j → j + 1 < n →
        ∃ e, attempts j = Except.error e ∧ jsStringOfCode e.code = "X14" ∧
          j < retries := by
  intro fuel
  induction fuel with
  | zero =>
      intro i out n h j hij hjn
      simp [pdLoop] at h
      omega
  | succ fuel ih =>
      intro i out n h j hij hjn
      rw [pdLoop] at h
      split at h
      · cases h
        omega
      · rename_i e ha
        split at h
        · rename_i hc
          rcases Nat.eq_or_lt_of_le hij with rfl | hlt
          · exact ⟨e, ha, hc.1, hc.2⟩
          · exact ih (i + 1) out n h j hlt hjn
        · cases h
          omega

theorem pdLoop_all_throttle {R : Type} (attempts : Nat → Except PDError R)
    (retries : Nat) :
    ∀ (fuel i : Nat), i + fuel = retries + 1 → i ≤ retries →
      (∀ j, i ≤ j → j ≤ retries →
        ∃ e, attempts j = Except.error e ∧ jsStringOfCode e.code = "X14") →
      ∃ e, pdLoop attempts retries i fuel = (Except.error e, retries + 1) ∧
        jsStringOfCode e.code = "X14" := by
  intro fuel
  induction fuel with
  | zero =>
      intro i hfuel hile _
      omega
  | succ fuel ih =>
      intro i hfuel hile hall
      obtain ⟨e, hae, hx⟩ := hall i le_rfl hile
      by_cases hi : i < retries
      · obtain ⟨e2, h2, hx2⟩ :=
          ih (i + 1) (by omega) (by omega)
            (fun j hj1 hj2 => hall j (by omega) hj2)
        refine ⟨e2, ?_, hx2⟩
        rw [pdLoop]
        simp only [hae]
        rw [if_pos ⟨hx, hi⟩]
        exact h2
      · have : i = retries := by omega
        subst this
        refine ⟨e, ?_, hx⟩
        rw [pdLoop]
        simp only [hae]
        rw [if_neg (fun hcon => hi hcon.2)]

/-- C7: the rate-limited client retries an attempt only when the upstream
    code is the throttle code X14 (every attempt before the last one of a
    run failed with X14 and had retries left), the number of attempts is
    bounded by retriesOnThrottle + 1; a first attempt that times out (the
    per-call abort signal) surfaces the timeout failure immediately after
    exactly one attempt, and any other first-attempt failure whose code is
    not X14 — missing API key, non-JSON body, upstream error payload —
    likewise surfaces after exactly one attempt; and when every attempt is
    throttled the call surfaces an X14 failure after exactly
    retriesOnThrottle + 1 queued attempts. -/
theorem C7_retry_only_on_throttle {R : Type}
    (attempts : Nat → Except PDError R) (retries : Nat) :
    (∀ out n, propertyDataGet attempts retries = (out, n) →
      n ≤ retries + 1 ∧
      ∀ j, j + 1 < n → ∃ e, attempts j = Except.error e ∧
        jsStringOfCode e.code = "X14" ∧ j < retries) ∧
    (attempts 0 = Except.error timeoutError →
      propertyDataGet attempts retries = (Except.error timeoutError, 1)) ∧
    (∀ e, attempts 0 = Except.error e → jsStringOfCode e.code ≠ "X14" →
      propertyDataGet attempts retries = (Except.error e, 1)) ∧
    ((∀ j, j ≤ retries →
        ∃ e, attempts j = Except.error e ∧ jsStringOfCode e.code = "X14") →
      ∃ e, propertyDataGet attempts retries = (Except.error e, retries + 1) ∧
        jsStringOfCode e.code = "X14") := by
  refine ⟨?_, ?_, ?_, ?_⟩
  · intro out n h
    refine ⟨by simpa using pdLoop_le attempts retries (retries + 1) 0 out n h, ?_⟩
    intro j hj
    exact pdLoop_prior_throttle attempts retries (retries + 1) 0 out n h j
      (Nat.zero_le j) hj
  · intro h0
    rw [propertyDataGet, pdLoop]
    simp only [h0]
    rw [if_neg (fun hcon => absurd hcon.1 (by decide))]
  · intro e h0 hne
    rw [propertyDataGet, pdLoop]
    simp only [h0]
    rw [if_neg (fun hcon => hne hcon.1)]
  · intro hall
    exact pdLoop_all_throttle attempts retries (retries + 1) 0 (by omega)
      (Nat.zero_le retries) (fun j _ hj2 => hall j hj2)

/-- Witness for C7: a timed-out first attempt with 2 configured retries is
    surfaced as the timeout failure after a single attempt. -/
theorem C7_retry_only_on_throttle_witness :
    propertyDataGet (fun _ => (Except.error timeoutError : Except PDError Nat)) 2 =
      (Except.error timeoutError, 1) :=
  (C7_retry_only_on_throttle (fun _ => Except.error timeoutError) 2).2.1 rfl

/-! ### Proximity-stage theorems -/

theorem dedupeByName_spec :
    ∀ (seen : List String) (l : List Station),
      ((dedupeByName seen l).map Station.name).Nodup ∧
      ∀ s ∈ dedupeByName seen l, s.name ∉ seen := by
  intro seen l
  induction l generalizing seen with
  | nil => simp [dedupeByName]
  | cons s rest ih =>
      by_cases hs : s.name ∈ seen
      · simpa [dedupeByName, hs] using ih seen
      · obtain ⟨hnd, hmem⟩ := ih (s.name :: seen)
        rw [dedupeByName, if_neg hs]
        refine ⟨?_, ?_⟩
        · rw [List.map_cons, List.nodup_cons]
          refine ⟨?_, hnd⟩
          intro hcon
          obtain ⟨t, ht, hteq⟩ := List.mem_map.mp hcon
          exact hmem t ht (by simp [hteq])
        · intro t ht
          rcases List.mem_cons.mp ht with rfl | ht2
          · exact hs
          · exact fun hcon => hmem t ht2 (List.mem_cons_of_mem _ hcon)

/-- C6: the stations route over-fetches 5 nearby stations when 3 are
    wanted, dedupes by exact name, and only then truncates: the output
    list has no duplicate names and length at most the requested count,
    and on provider output A, A, B with requested count 2 the result is
    A, B. -/
theorem C6_dedupe_before_limit :
    (∀ (raw : List Station) (n : Nat),
        ((dedupeAndLimit raw n).map Station.name).Nodup ∧
        (dedupeAndLimit raw n).length ≤ n) ∧
    (∀ (apiKey : Option String) (fetch : NearbyFetch) (out : List Station),
        stationsStage apiKey fetch = some out →
        (out.map Station.name).Nodup ∧ out.length ≤ 3) ∧
    dedupeAndLimit
        [⟨"Station A", 0, 0⟩, ⟨"Station A", 0, 0⟩, ⟨"Station B", 0, 0⟩] 2 =
      [⟨"Station A", 0, 0⟩, ⟨"Station B", 0, 0⟩] := by
  have hmain : ∀ (raw : List Station) (n : Nat),
      ((dedupeAndLimit raw n).map Station.name).Nodup ∧
      (dedupeAndLimit raw n).length ≤ n := by
    intro raw n
    constructor
    · rw [dedupeAndLimit, List.map_take]
      exact ((dedupeByName_spec [] raw).1).sublist (List.take_sublist _ _)
    · rw [dedupeAndLimit]
      exact List.length_take_le _ _
  refine ⟨hmain, ?_, by decide⟩
  intro apiKey fetch out hout
  rw [stationsStage] at hout
  obtain ⟨raw, _, rfl⟩ := Option.map_eq_some'.mp hout
  exact hmain raw 3

/-- Witness for C6 (its second conjunct has hypotheses): a concrete run of
    the route pipeline on a provider body with a duplicated name. -/
theorem C6_dedupe_before_limit_witness :
    (([(⟨"Station A", 0, 0⟩ : Station), ⟨"Station A", 0, 0⟩,
        ⟨"Station B", 0, 0⟩].map Station.name).Nodup →
      False) ∧
    ((dedupeAndLimit
        [⟨"Station A", 0, 0⟩, ⟨"Station A", 0, 0⟩, ⟨"Station B", 0, 0⟩] 2).map
          Station.name).Nodup := by
  refine ⟨by decide, ?_⟩
  have h := (C6_dedupe_before_limit.1
    [⟨"Station A", 0, 0⟩, ⟨"Station A", 0, 0⟩, ⟨"Station B", 0, 0⟩] 2).1
  exact h

/-- C8: findNearbyStations returns null exactly on provider failure
    (missing API key, thrown fetch, non-OK HTTP response, or provider
    status other than OK and ZERO_RESULTS) and returns the empty list
    exactly on a legitimate ZERO_RESULTS report, so the caller can
    distinguish the two. (Side conditions: the requested count is
    positive, and an OK response carries at least one result — Google
    reports an empty result set as ZERO_RESULTS, not as OK.) -/
theorem C8_null_vs_empty (apiKey : Option String) (count : Nat)
    (fetch : NearbyFetch) (hcount : 0 < count)
    (hne : ∀ d, fetch = NearbyFetch.body d → d.status = "OK" → d.results ≠ []) :
    (findNearbyStations apiKey count fetch = none ↔
      (apiKey = none ∨ fetch = NearbyFetch.transportError ∨
       (∃ s, fetch = NearbyFetch.httpError s) ∨
       (∃ d, fetch = NearbyFetch.body d ∧ d.status ≠ "OK" ∧
          d.status ≠ "ZERO_RESULTS"))) ∧
    (findNearbyStations apiKey count fetch = some [] ↔
      (apiKey ≠ none ∧
       ∃ d, fetch = NearbyFetch.body d ∧ d.status = "ZERO_RESULTS")) := by
  cases apiKey with
  | none => simp [findNearbyStations]
  | some k =>
      cases fetch with
      | transportError => simp [findNearbyStations]
      | httpError s => simp [findNearbyStations]
      | body d =>
          by_cases hz : d.status = "ZERO_RESULTS"
          · constructor
            · simp [findNearbyStations, hz]
            · simp [findNearbyStations, hz]
          · by_cases hok : d.status = "OK"
            · have hres := hne d rfl hok
              constructor
              · simp [findNearbyStations, hz, hok]
              · rw [findNearbyStations]
                simp only [if_neg hz, if_pos hok]
                simp [hz, List.take_eq_nil_iff, hres, Nat.pos_iff_ne_zero.mp hcount]
            · constructor
              · simp [findNearbyStations, hz, hok]
              · simp [findNearbyStations, hz, hok]

/-- Witness for C8: a zero-results body with an API key present maps to
    the empty list, not to null. -/
theorem C8_null_vs_empty_witness :
    findNearbyStations (some "key") 1
        (NearbyFetch.body ⟨"ZERO_RESULTS", []⟩) = some [] ∧
    findNearbyStations (some "key") 1 NearbyFetch.transportError = none := by
  have h := C8_null_vs_empty (some "key") 1
    (NearbyFetch.body ⟨"ZERO_RESULTS", []⟩) (by norm_num)
    (fun d hd hok => by
      cases hd
      exact absurd hok (by decide))
  have h2 := C8_null_vs_empty (some "key") 1 NearbyFetch.transportError
    (by norm_num) (fun d hd _ => by cases hd)
  exact ⟨h.2.mpr ⟨by simp, ⟨"ZERO_RESULTS", []⟩, rfl, rfl⟩,
         h2.1.mpr (Or.inr (Or.inl rfl))⟩

/-! ### Cascade lemmas: cache writes and method tags -/

theorem uprnToTitle_cache (api : PlotApi) (u : String) (st : PlotSt) :
    (uprnToTitle api u st).2.cache = st.cache := rfl

theorem titleToPlotSize_cache (api : PlotApi) (t : String) (st : PlotSt) :
    (titleToPlotSize api t st).2.cache = st.cache := by
  rw [titleToPlotSize]
  rcases api.title t with e | tr
  · rfl
  · rfl

theorem runCandidates_ok_some {api : PlotApi} {now : Nat} {key : String}
    {method : PlotMethod} {mkAddr : Option String → Option String} :
    ∀ {rows : List UprnsRow} {st : PlotSt} {r : PlotSizeResult} {st' : PlotSt},
      runCandidates api now key method mkAddr rows st =
        (Except.ok (some r), st') →
      r.method = some method ∧
      st'.cache = st.cache.set now key r TTL_PLOT_SIZE := by
  intro rows
  induction rows with
  | nil =>
      intro st r st' h
      simp [runCandidates] at h
  | cons row rest ih =>
      intro st r st' h
      rw [runCandidates] at h
      split at h
      · exact ih h
      · rename_i u hu
        split at h
        · rename_i st1 h1
          have hc1 : st1.cache = st.cache := by
            have := congrArg (fun p => p.2.cache) h1
            simpa [uprnToTitle_cache] using this.symm
          obtain ⟨hm, hc⟩ := ih h
          exact ⟨hm, by rw [hc, hc1]⟩
        · rename_i tn st1 h1
          have hc1 : st1.cache = st.cache := by
            have := congrArg (fun p => p.2.cache) h1
            simpa [uprnToTitle_cache] using this.symm
          split at h
          · exact absurd h (by simp)
          · rename_i acres st2 h2
            have hc2 : st2.cache = st1.cache := by
              have := congrArg (fun p => p.2.cache) h2
              simpa [titleToPlotSize_cache] using this.symm
            rw [Prod.mk.injEq] at h
            obtain ⟨hr, hst'⟩ := h
            cases hr
            refine ⟨rfl, ?_⟩
            rw [← hst']
            simp [hc2, hc1]

theorem runCandidates_no_result {api : PlotApi} {now : Nat} {key : String}
    {method : PlotMethod} {mkAddr : Option String → Option String} :
    ∀ {rows : List UprnsRow} {st : PlotSt} {out : Except PDError (Option PlotSizeResult)}
      {st' : PlotSt},
      runCandidates api now key method mkAddr rows st = (out, st') →
      (∀ r, out ≠ Except.ok (some r)) → st'.cache = st.cache := by
  intro rows
  induction rows with
  | nil =>
      intro st out st' h hno
      rw [runCandidates, Prod.mk.injEq] at h
      rw [← h.2]
  | cons row rest ih =>
      intro st out st' h hno
      rw [runCandidates] at h
      split at h
      · exact ih h hno
      · rename_i u hu
        split at h
        · rename_i st1 h1
          have hc1 : st1.cache = st.cache := by
            have := congrArg (fun p => p.2.cache) h1
            simpa [uprnToTitle_cache] using this.symm
          rw [ih h hno, hc1]
        · rename_i tn st1 h1
          have hc1 : st1.cache = st.cache := by
            have := congrArg (fun p => p.2.cache) h1
            simpa [uprnToTitle_cache] using this.symm
          split at h
          · rename_i e st2 h2
            have hc2 : st2.cache = st1.cache := by
              have := congrArg (fun p => p.2.cache) h2
              simpa [titleToPlotSize_cache] using this.symm
            rw [Prod.mk.injEq] at h
            rw [← h.2, hc2, hc1]
          · rename_i acres st2 h2
            rw [Prod.mk.injEq] at h
            exact absurd h.1.symm (hno _)

theorem tryAddressMatch_ok_some {api : PlotApi} {now : Nat}
    {key address : String} {st : PlotSt} {r : PlotSizeResult} {st' : PlotSt}
    (h : tryAddressMatch api now key address st = (Except.ok (some r), st')) :
    r.method = some PlotMethod.addressMatchUprn ∧
    st'.cache = st.cache.set now key r TTL_PLOT_SIZE := by
  rw [tryAddressMatch] at h
  split at h
  · exact absurd h (by simp)
  · split at h
    · split at h
      · simp at h
      · split at h
        · simp at h
        · rename_i tn st1 h1
          have hc1 : st1.cache = st.cache := by
            have := congrArg (fun p => p.2.cache) h1
            simpa [uprnToTitle_cache, recordCall] using this.symm
          split at h
          · exact absurd h (by simp)
          · rename_i acres st2 h2
            have hc2 : st2.cache = st1.cache := by
              have := congrArg (fun p => p.2.cache) h2
              simpa [titleToPlotSize_cache] using this.symm
            rw [Prod.mk.injEq] at h
            obtain ⟨hr, hst'⟩ := h
            cases hr
            refine ⟨rfl, ?_⟩
            rw [← hst']
            simp [hc2, hc1]
    · simp at h

theorem tryAddressMatch_no_result {api : PlotApi} {now : Nat}
    {key address : String} {st : PlotSt}
    {out : Except PDError (Option PlotSizeResult)} {st' : PlotSt}
    (h : tryAddressMatch api now key address st = (out, st'))
    (hno : ∀ r, out ≠ Except.ok (some r)) : st'.cache = st.cache := by
  rw [tryAddressMatch] at h
  split at h
  · rw [Prod.mk.injEq] at h
    rw [← h.2, recordCall]
  · split at h
    · split at h
      · rw [Prod.mk.injEq] at h
        rw [← h.2, recordCall]
      · split at h
        · rename_i st1 h1
          have hc1 : st1.cache = st.cache := by
            have := congrArg (fun p => p.2.cache) h1
            simpa [uprnToTitle_cache, recordCall] using this.symm
          rw [Prod.mk.injEq] at h
          rw [← h.2, hc1]
        · rename_i tn st1 h1
          have hc1 : st1.cache = st.cache := by
            have := congrArg (fun p => p.2.cache) h1
            simpa [uprnToTitle_cache, recordCall] using this.symm
          split at h
          · rename_i e st2 h2
            have hc2 : st2.cache = st1.cache := by
              have := congrArg (fun p => p.2.cache) h2
              simpa [titleToPlotSize_cache] using this.symm
            rw [Prod.mk.injEq] at h
            rw [← h.2, hc2, hc1]
          · rename_i acres st2 h2
            rw [Prod.mk.injEq] at h
            exact absurd h.1.symm (hno _)
    · rw [Prod.mk.injEq] at h
      rw [← h.2, recordCall]

theorem titleToPlotSize_error {api : PlotApi} {t : String} {st : PlotSt}
    {e : PDError} {st' : PlotSt}
    (h : titleToPlotSize api t st = (Except.error e, st')) :
    api.title t = Except.error e := by
  rw [titleToPlotSize] at h
  rcases ht : api.title t with e2 | tr
  · rw [ht, Prod.mk.injEq] at h
    cases h.1
    rfl
  · rw [ht] at h
    simp at h

theorem runCandidates_error {api : PlotApi} {now : Nat} {key : String}
    {method : PlotMethod} {mkAddr : Option String → Option String} :
    ∀ {rows : List UprnsRow} {st : PlotSt} {e : PDError} {st' : PlotSt},
      runCandidates api now key method mkAddr rows st = (Except.error e, st') →
      ∃ t, api.title t = Except.error e := by
  intro rows
  induction rows with
  | nil =>
      intro st e st' h
      simp [runCandidates] at h
  | cons row rest ih =>
      intro st e st' h
      rw [runCandidates] at h
      split at h
      · exact ih h
      · rename_i u hu
        split at h
        · exact ih h
        · rename_i tn st1 h1
          split at h
          · rename_i e2 st2 h2
            rw [Prod.mk.injEq] at h
            cases h.1
            exact ⟨tn, titleToPlotSize_error h2⟩
          · simp at h

theorem tryAddressMatch_error {api : PlotApi} {now : Nat}
    {key address : String} {st : PlotSt} {e : PDError} {st' : PlotSt}
    (h : tryAddressMatch api now key address st = (Except.error e, st')) :
    api.addressMatch address = Except.error e ∨
    ∃ t, api.title t = Except.error e := by
  rw [tryAddressMatch] at h
  split at h
  · rename_i e2 ha
    rw [Prod.mk.injEq] at h
    cases h.1
    exact Or.inl ha
  · split at h
    · split at h
      · simp at h
      · split at h
        · simp at h
        · rename_i tn st1 h1
          split at h
          · rename_i e2 st2 h2
            rw [Prod.mk.injEq] at h
            cases h.1
            exact Or.inr ⟨tn, titleToPlotSize_error h2⟩
          · simp at h
    · simp at h

theorem tryLocation_ok_some {api : PlotApi} {now : Nat} {key : String}
    {input : PlotInput} {lat lng : ℚ} {st : PlotSt} {r : PlotSizeResult}
    {st' : PlotSt}
    (h : tryLocation api now key input lat lng st = (Except.ok (some r), st')) :
    (r.method = some PlotMethod.addressMatchUprn ∨
     r.method = some PlotMethod.uprnsLocation) ∧
    st'.cache = st.cache.set now key r TTL_PLOT_SIZE := by
  rw [tryLocation] at h
  split at h
  · simp at h
  · split at h
    · split at h
      · split at h
        · simp at h
        · dsimp only at h
          split at h
          · simp at h
          · rename_i r2 st1 h1
            rw [Prod.mk.injEq] at h
            obtain ⟨hr, hst'⟩ := h
            cases hr
            obtain ⟨hm, hc⟩ := runCandidates_ok_some h1
            exact ⟨Or.inl hm, by rw [← hst', hc, recordCall]⟩
          · rename_i st1 h1
            have hc1 : st1.cache = st.cache := by
              have h1c := runCandidates_no_result h1 (by simp)
              rw [h1c, recordCall]
            obtain ⟨hm, hc⟩ := runCandidates_ok_some h
            exact ⟨Or.inr hm, by rw [hc, hc1]⟩
      · simp at h
    · simp at h

theorem tryLocation_no_result {api : PlotApi} {now : Nat} {key : String}
    {input : PlotInput} {lat lng : ℚ} {st : PlotSt}
    {out : Except PDError (Option PlotSizeResult)} {st' : PlotSt}
    (h : tryLocation api now key input lat lng st = (out, st'))
    (hno : ∀ r, out ≠ Except.ok (some r)) : st'.cache = st.cache := by
  rw [tryLocation] at h
  split at h
  · rw [Prod.mk.injEq] at h
    rw [← h.2, recordCall]
  · split at h
    · split at h
      · split at h
        · rw [Prod.mk.injEq] at h
          rw [← h.2, recordCall]
        · dsimp only at h
          split at h
          · rename_i e st1 h1
            rw [Prod.mk.injEq] at h
            obtain ⟨ho, hst'⟩ := h
            have hc1 : st1.cache = st.cache := by
              have h1c := runCandidates_no_result h1 (by simp)
              rw [h1c, recordCall]
            rw [← hst', hc1]
          · rename_i r2 st1 h1
            rw [Prod.mk.injEq] at h
            exact absurd h.1.symm (hno _)
          · rename_i st1 h1
            have hc1 : st1.cache = st.cache := by
              have h1c := runCandidates_no_result h1 (by simp)
              rw [h1c, recordCall]
            rw [runCandidates_no_result h hno, hc1]
      · rw [Prod.mk.injEq] at h
        rw [← h.2, recordCall]
    · rw [Prod.mk.injEq] at h
      rw [← h.2, recordCall]

theorem tryPostcode_ok_some {api : PlotApi} {now : Nat} {key : String}
    {input : PlotInput} {pcRaw : String} {st : PlotSt} {r : PlotSizeResult}
    {st' : PlotSt}
    (h : tryPostcode api now key input pcRaw st = (Except.ok (some r), st')) :
    (r.method = some PlotMethod.addressMatchUprn ∨
     r.method = some PlotMethod.uprnsPostcode) ∧
    st'.cache = st.cache.set now key r TTL_PLOT_SIZE := by
  rw [tryPostcode] at h
  split at h
  · simp at h
  · split at h
    · split at h
      · split at h
        · simp at h
        · dsimp only at h
          split at h
          · simp at h
          · rename_i r2 st1 h1
            rw [Prod.mk.injEq] at h
            obtain ⟨hr, hst'⟩ := h
            cases hr
            obtain ⟨hm, hc⟩ := runCandidates_ok_some h1
            exact ⟨Or.inl hm, by rw [← hst', hc, recordCall]⟩
          · rename_i st1 h1
            have hc1 : st1.cache = st.cache := by
              have h1c := runCandidates_no_result h1 (by simp)
              rw [h1c, recordCall]
            obtain ⟨hm, hc⟩ := runCandidates_ok_some h
            exact ⟨Or.inr hm, by rw [hc, hc1]⟩
      · simp at h
    · simp at h

theorem tryPostcode_no_result {api : PlotApi} {now : Nat} {key : String}
    {input : PlotInput} {pcRaw : String} {st : PlotSt}
    {out : Except PDError (Option PlotSizeResult)} {st' : PlotSt}
    (h : tryPostcode api now key input pcRaw st = (out, st'))
    (hno : ∀ r, out ≠ Except.ok (some r)) : st'.cache = st.cache := by
  rw [tryPostcode] at h
  split at h
  · rw [Prod.mk.injEq] at h
    rw [← h.2, recordCall]
  · split at h
    · split at h
      · split at h
        · rw [Prod.mk.injEq] at h
          rw [← h.2, recordCall]
        · dsimp only at h
          split at h
          · rename_i e st1 h1
            rw [Prod.mk.injEq] at h
            obtain ⟨ho, hst'⟩ := h
            have hc1 : st1.cache = st.cache := by
              have h1c := runCandidates_no_result h1 (by simp)
              rw [h1c, recordCall]
            rw [← hst', hc1]
          · rename_i r2 st1 h1
            rw [Prod.mk.injEq] at h
            exact absurd h.1.symm (hno _)
          · rename_i st1 h1
            have hc1 : st1.cache = st.cache := by
              have h1c := runCandidates_no_result h1 (by simp)
              rw [h1c, recordCall]
            rw [runCandidates_no_result h hno, hc1]
      · rw [Prod.mk.injEq] at h
        rw [← h.2, recordCall]
    · rw [Prod.mk.injEq] at h
      rw [← h.2, recordCall]

theorem catchStrategy_some {res : Except PDError (Option PlotSizeResult) × PlotSt}
    {r : PlotSizeResult} {st2 : PlotSt}
    (h : catchStrategy res = (some r, st2)) :
    res = (Except.ok (some r), st2) := by
  rcases res with ⟨out, st⟩
  cases out with
  | ok o =>
      rw [catchStrategy] at h
      rw [Prod.mk.injEq] at h ⊢
      exact ⟨by rw [h.1], h.2⟩
  | error e =>
      rw [catchStrategy] at h
      simp at h

theorem catchStrategy_none {res : Except PDError (Option PlotSizeResult) × PlotSt}
    {st2 : PlotSt} (h : catchStrategy res = (none, st2)) :
    res.2 = st2 ∧ ∀ r, res.1 ≠ Except.ok (some r) := by
  rcases res with ⟨out, st⟩
  cases out with
  | ok o =>
      rw [catchStrategy] at h
      rw [Prod.mk.injEq] at h
      refine ⟨h.2, fun r hcon => ?_⟩
      have hcon2 : Except.ok o = Except.ok (some r) := hcon
      rw [h.1] at hcon2
      simp at hcon2
  | error e =>
      rw [catchStrategy] at h
      rw [Prod.mk.injEq] at h
      exact ⟨h.2, by simp⟩

theorem strategyStep2_some {api : PlotApi} {now : Nat} {key : String}
    {input : PlotInput} {st : PlotSt} {r : PlotSizeResult} {st2 : PlotSt}
    (h : strategyStep2 api now key input st = (some r, st2)) :
    (r.method = some PlotMethod.addressMatchUprn ∨
     r.method = some PlotMethod.uprnsLocation) ∧
    st2.cache = st.cache.set now key r TTL_PLOT_SIZE := by
  rw [strategyStep2] at h
  split at h
  · exact tryLocation_ok_some (catchStrategy_some h)
  · simp at h

theorem strategyStep2_none {api : PlotApi} {now : Nat} {key : String}
    {input : PlotInput} {st : PlotSt} {st2 : PlotSt}
    (h : strategyStep2 api now key input st = (none, st2)) :
    st2.cache = st.cache := by
  rw [strategyStep2] at h
  split at h
  · rename_i c hc
    rcases hres : tryLocation api now key input c.latitude c.longitude st
      with ⟨out, stx⟩
    rw [hres] at h
    obtain ⟨h2, hno⟩ := catchStrategy_none h
    rw [← h2]
    exact tryLocation_no_result hres (by simpa using hno)
  · rw [Prod.mk.injEq] at h
    rw [← h.2]

theorem strategyStep3_some {api : PlotApi} {now : Nat} {key : String}
    {input : PlotInput} {st : PlotSt} {r : PlotSizeResult} {st2 : PlotSt}
    (h : strategyStep3 api now key input st = (some r, st2)) :
    (r.method = some PlotMethod.addressMatchUprn ∨
     r.method = some PlotMethod.uprnsPostcode) ∧
    st2.cache = st.cache.set now key r TTL_PLOT_SIZE := by
  rw [strategyStep3] at h
  split at h
  · exact tryPostcode_ok_some (catchStrategy_some h)
  · simp at h

theorem strategyStep3_none {api : PlotApi} {now : Nat} {key : String}
    {input : PlotInput} {st : PlotSt} {st2 : PlotSt}
    (h : strategyStep3 api now key input st = (none, st2)) :
    st2.cache = st.cache := by
  rw [strategyStep3] at h
  split at h
  · rename_i p hp
    rcases hres : tryPostcode api now key input p st with ⟨out, stx⟩
    rw [hres] at h
    obtain ⟨h2, hno⟩ := catchStrategy_none h
    rw [← h2]
    exact tryPostcode_no_result hres (by simpa using hno)
  · rw [Prod.mk.injEq] at h
    rw [← h.2]

/-- Each run of the fallback stages terminates in an ok result whose value
    was written to the cache under the request key with the plot-size TTL;
    a result without a method tag is exactly the all-null base. -/
theorem plotFallbacks_spec (api : PlotApi) (now : Nat) (key : String)
    (input : PlotInput) (st : PlotSt) :
    ∃ r st', plotFallbacks api now key input st = (Except.ok r, st') ∧
      st'.cache = st.cache.set now key r TTL_PLOT_SIZE ∧
      (r.method = none → r = basePlotResult) := by
  rw [plotFallbacks]
  rcases h2 : strategyStep2 api now key input st with ⟨o2, st2⟩
  cases o2 with
  | some r =>
      obtain ⟨hm, hc⟩ := strategyStep2_some h2
      refine ⟨r, st2, rfl, hc, ?_⟩
      intro hnone
      rcases hm with hm | hm <;> rw [hm] at hnone <;> cases hnone
  | none =>
      have hc2 := strategyStep2_none h2
      dsimp only
      rcases h3 : strategyStep3 api now key input st2 with ⟨o3, st3⟩
      cases o3 with
      | some r =>
          obtain ⟨hm, hc⟩ := strategyStep3_some h3
          refine ⟨r, st3, rfl, by rw [hc, hc2], ?_⟩
          intro hnone
          rcases hm with hm | hm <;> rw [hm] at hnone <;> cases hnone
      | none =>
          have hc3 := strategyStep3_none h3
          exact ⟨basePlotResult, _, rfl, by simp [hc3, hc2], fun _ => rfl⟩

theorem get_of_findEntry_live {V : Type} {c : TTLCache V} {k : String}
    {e : CacheEntry V} (now : Nat) (hf : c.findEntry k = some e)
    (hlive : ¬ now > e.expiresAt) :
    c.get now k = (some e.value, c) := by
  rw [TTLCache.get, hf]
  dsimp only
  rw [if_neg hlive]

/-! ### Concrete fixtures used by the cascade witnesses -/

def errNoCode : PDError := { message := "boom" }

def okAMResp : AMResponse :=
  { status := "success",
    data := some (AMData.arr [{ uprn := some "u1", address := some "12 Foo Road" }]) }

def uprnTitleRespOK : UprnTitleResponse :=
  { status := "success",
    data := some { title_data := some [{ title_number := some "T1" }] } }

def titleRespOK : TitleResponse :=
  { status := "success",
    data := some { plot_size := PlotSizeField.num (some (1 / 4 : ℚ)) } }

/-- An upstream that answers the direct address-match path successfully. -/
def apiDirectHit : PlotApi :=
  { addressMatch := fun _ => Except.ok okAMResp,
    uprnTitle := fun _ => Except.ok uprnTitleRespOK,
    title := fun _ => Except.ok titleRespOK,
    uprnsLocation := fun _ _ => Except.error errNoCode,
    uprnsPostcode := fun _ => Except.error errNoCode,
    dist := fun _ _ _ _ => 0 }

/-- An upstream on which every endpoint fails (with no X14-style code; the
    uprn-title endpoint fails with the expected no-title code 2101). -/
def apiAllFail : PlotApi :=
  { addressMatch := fun _ => Except.error errNoCode,
    uprnTitle := fun _ => Except.error { message := "no title", code := some "2101" },
    title := fun _ => Except.error errNoCode,
    uprnsLocation := fun _ _ => Except.error errNoCode,
    uprnsPostcode := fun _ => Except.error errNoCode,
    dist := fun _ _ _ _ => 0 }

/-- An upstream whose address-match failure carries, as its upstream error
    code, exactly the key-missing message the catch block compares
    against. -/
def apiKeyCodeErr : PlotApi :=
  { addressMatch := fun _ => Except.error
      { message := "boom",
        code := some "PropertyData API key is not configured" },
    uprnTitle := fun _ => Except.error errNoCode,
    title := fun _ => Except.error errNoCode,
    uprnsLocation := fun _ _ => Except.error errNoCode,
    uprnsPostcode := fun _ => Except.error errNoCode,
    dist := fun _ _ _ _ => 0 }

def inputSimple : PlotInput :=
  { address := "12 Foo Road", postcode := some "AB1 2CD" }

/-! ### Cascade theorems -/

/-- C2: when the direct address-match strategy yields a usable value — the
    address-match call succeeds with at least one candidate, the first
    candidate resolves to a title, and the title lookup returns — the
    cascade returns at once, tagged address-match-uprn, and the call trace
    is exactly address-match, uprn-title, title: the coordinate-radius and
    postal-area searches are never invoked and no further provider call is
    made. (The run starts from a cold cache for this key.) -/
theorem C2_direct_match_short_circuits (api : PlotApi) (now : Nat)
    (c : TTLCache PlotSizeResult) (input : PlotInput) (am : AMResponse)
    (m : MatchRec) (ms : List MatchRec) (t : String) (tr : TitleResponse)
    (hmiss : (TTLCache.get
        (if input.bustCache then c.delete (plotCacheKey input) else c)
        now (plotCacheKey input)).1 = none)
    (ham : api.addressMatch input.address = Except.ok am)
    (hst : am.status = "success")
    (hm : extractMatches am = m :: ms)
    (ht : uprnTitleValue api m.uprn = some t)
    (htr : api.title t = Except.ok tr) :
    (getPlotSizeAcres api now c input).2.calls =
      [PDCall.addressMatch input.address, PDCall.uprnTitle m.uprn,
       PDCall.title t] ∧
    (getPlotSizeAcres api now c input).2.calls.all
      (fun cl => ! cl.isUprnsSearch) ∧
    ∃ r, (getPlotSizeAcres api now c input).1 = Except.ok r ∧
      r.method = some PlotMethod.addressMatchUprn ∧
      r.uprn = some m.uprn ∧ r.titleNumber = some t := by
  rcases hget : TTLCache.get
      (if input.bustCache then c.delete (plotCacheKey input) else c)
      now (plotCacheKey input) with ⟨o, c2⟩
  have ho : o = none := by rw [hget] at hmiss; exact hmiss
  subst ho
  set rr : PlotSizeResult :=
    { plotSizeAcres := titleValueOf tr, uprn := some m.uprn,
      titleNumber := some t, matchedAddress := jsTruthyStr m.address,
      method := some PlotMethod.addressMatchUprn } with hrr
  have hAM : tryAddressMatch api now (plotCacheKey input) input.address ⟨c2, []⟩ =
      (Except.ok (some rr),
       ⟨TTLCache.set c2 now (plotCacheKey input) rr TTL_PLOT_SIZE,
        [PDCall.addressMatch input.address, PDCall.uprnTitle m.uprn,
         PDCall.title t]⟩) := by
    rw [tryAddressMatch]
    simp only [ham]
    rw [if_pos hst]
    simp only [hm, uprnToTitle, ht, titleToPlotSize, htr, recordCall,
      TTLCache.set]
    simp [hrr]
  have hrun : getPlotSizeAcres api now c input =
      (Except.ok rr,
       ⟨TTLCache.set c2 now (plotCacheKey input) rr TTL_PLOT_SIZE,
        [PDCall.addressMatch input.address, PDCall.uprnTitle m.uprn,
         PDCall.title t]⟩) := by
    simp only [getPlotSizeAcres]
    rw [hget]
    dsimp only
    rw [hAM]
  rw [hrun]
  exact ⟨rfl, by simp [PDCall.isUprnsSearch], rr, rfl, rfl, rfl, rfl⟩

/-- Witness for C2: a concrete successful direct match. -/
theorem C2_direct_match_short_circuits_witness :
    (getPlotSizeAcres apiDirectHit 0 TTLCache.empty inputSimple).2.calls =
      [PDCall.addressMatch "12 Foo Road", PDCall.uprnTitle "u1",
       PDCall.title "T1"] ∧
    (getPlotSizeAcres apiDirectHit 0 TTLCache.empty inputSimple).2.calls.all
      (fun cl => ! cl.isUprnsSearch) ∧
    ∃ r, (getPlotSizeAcres apiDirectHit 0 TTLCache.empty inputSimple).1 =
        Except.ok r ∧
      r.method = some PlotMethod.addressMatchUprn ∧
      r.uprn = some "u1" ∧ r.titleNumber = some "T1" := by
  have h := C2_direct_match_short_circuits apiDirectHit 0 TTLCache.empty
    inputSimple okAMResp ⟨"u1", some "12 Foo Road"⟩ [] "T1" titleRespOK
    (by decide) rfl rfl (by decide) (by decide) rfl
  simpa [inputSimple] using h

/-- C4: in the coordinate-radius step, with strategy 1 exhausted (a
    successful address-match response with no candidates), a row with an
    exact door-number-plus-street match is the only candidate tried — one
    uprn-title lookup in the whole trace — and a success through it is
    tagged with the high-confidence address-match-uprn label; whereas with
    no exact row, a success through the first same-street row is tagged
    with the lower-confidence uprns-location label, which is distinct from
    the exact-match label. -/
theorem C4_exact_vs_fallback_tagging (api : PlotApi) (now : Nat)
    (c : TTLCache PlotSizeResult) (input : PlotInput) (am : AMResponse)
    (la lo : ℚ) (ur : UprnsResponse) (rows : List UprnsRow)
    (hmiss : (TTLCache.get
        (if input.bustCache then c.delete (plotCacheKey input) else c)
        now (plotCacheKey input)).1 = none)
    (hcoord : input.coordinates = some ⟨la, lo⟩)
    (ham : api.addressMatch input.address = Except.ok am)
    (hst : am.status = "success")
    (hm0 : extractMatches am = [])
    (hu : api.uprnsLocation la lo = Except.ok ur)
    (hust : ur.status = "success")
    (hdata : ur.data = some rows)
    (hne : rows.isEmpty = false) :
    (∀ r0 rs u t tr,
      exactLocationMatches rows (streetOf input) (numTokenOf input) = r0 :: rs →
      r0.uprn = some u → uprnTitleValue api u = some t →
      api.title t = Except.ok tr →
      (getPlotSizeAcres api now c input).2.calls =
        [PDCall.addressMatch input.address, PDCall.uprnsLocation la lo,
         PDCall.uprnTitle u, PDCall.title t] ∧
      (getPlotSizeAcres api now c input).2.calls.countP PDCall.isUprnTitle = 1 ∧
      ∃ r, (getPlotSizeAcres api now c input).1 = Except.ok r ∧
        r.method = some PlotMethod.addressMatchUprn ∧ r.uprn = some u) ∧
    (∀ s0 ss u t tr,
      exactLocationMatches rows (streetOf input) (numTokenOf input) = [] →
      sameStreetLocationMatches rows (streetOf input) = s0 :: ss →
      s0.uprn = some u → uprnTitleValue api u = some t →
      api.title t = Except.ok tr →
      PlotMethod.uprnsLocation ≠ PlotMethod.addressMatchUprn ∧
      ∃ r, (getPlotSizeAcres api now c input).1 = Except.ok r ∧
        r.method = some PlotMethod.uprnsLocation ∧ r.uprn = some u) := by
  rcases hget : TTLCache.get
      (if input.bustCache then c.delete (plotCacheKey input) else c)
      now (plotCacheKey input) with ⟨o, c2⟩
  have ho : o = none := by rw [hget] at hmiss; exact hmiss
  subst ho
  have hAM0 : tryAddressMatch api now (plotCacheKey input) input.address ⟨c2, []⟩ =
      (Except.ok none, ⟨c2, [PDCall.addressMatch input.address]⟩) := by
    rw [tryAddressMatch]
    simp only [ham]
    rw [if_pos hst]
    simp only [hm0, recordCall]
    simp
  constructor
  · intro r0 rs u t tr hex hr0 ht htr
    set rr : PlotSizeResult :=
      { plotSizeAcres := titleValueOf tr, uprn := some u,
        titleNumber := some t, matchedAddress := r0.address,
        method := some PlotMethod.addressMatchUprn } with hrr
    have hLoc : tryLocation api now (plotCacheKey input) input la lo
        ⟨c2, [PDCall.addressMatch input.address]⟩ =
        (Except.ok (some rr),
         ⟨TTLCache.set c2 now (plotCacheKey input) rr TTL_PLOT_SIZE,
          [PDCall.addressMatch input.address, PDCall.uprnsLocation la lo,
           PDCall.uprnTitle u, PDCall.title t]⟩) := by
      rw [tryLocation]
      simp only [hu]
      rw [if_pos hust]
      simp only [hdata]
      simp only [hne, Bool.false_eq_true, if_false]
      simp only [hex, List.take_succ_cons, List.take_zero]
      simp only [runCandidates, hr0, uprnToTitle, ht, titleToPlotSize, htr,
        recordCall, TTLCache.set]
      simp [hrr]
    have hrun : getPlotSizeAcres api now c input =
        (Except.ok rr,
         ⟨TTLCache.set c2 now (plotCacheKey input) rr TTL_PLOT_SIZE,
          [PDCall.addressMatch input.address, PDCall.uprnsLocation la lo,
           PDCall.uprnTitle u, PDCall.title t]⟩) := by
      simp only [getPlotSizeAcres]
      rw [hget]
      dsimp only
      rw [hAM0]
      dsimp only
      rw [plotFallbacks, strategyStep2, hcoord]
      dsimp only
      rw [hLoc]
      rfl
    rw [hrun]
    exact ⟨rfl, by simp [PDCall.isUprnTitle, List.countP_cons], rr, rfl, rfl, rfl⟩
  · intro s0 ss u t tr hex0 hss hs0 ht htr
    set rr : PlotSizeResult :=
      { plotSizeAcres := titleValueOf tr, uprn := some u,
        titleNumber := some t, matchedAddress := s0.address,
        method := some PlotMethod.uprnsLocation } with hrr
    have hLoc : tryLocation api now (plotCacheKey input) input la lo
        ⟨c2, [PDCall.addressMatch input.address]⟩ =
        (Except.ok (some rr),
         ⟨TTLCache.set c2 now (plotCacheKey input) rr TTL_PLOT_SIZE,
          [PDCall.addressMatch input.address, PDCall.uprnsLocation la lo,
           PDCall.uprnTitle u, PDCall.title t]⟩) := by
      rw [tryLocation]
      simp only [hu]
      rw [if_pos hust]
      simp only [hdata]
      simp only [hne, Bool.false_eq_true, if_false]
      simp only [hex0, List.take_nil, runCandidates]
      simp only [hss, List.isEmpty_cons, Bool.false_eq_true, if_false,
        List.take_succ_cons]
      simp only [runCandidates, hs0, uprnToTitle, ht, titleToPlotSize, htr,
        recordCall, TTLCache.set]
      simp [hrr]
    have hrun : getPlotSizeAcres api now c input =
        (Except.ok rr,
         ⟨TTLCache.set c2 now (plotCacheKey input) rr TTL_PLOT_SIZE,
          [PDCall.addressMatch input.address, PDCall.uprnsLocation la lo,
           PDCall.uprnTitle u, PDCall.title t]⟩) := by
      simp only [getPlotSizeAcres]
      rw [hget]
      dsimp only
      rw [hAM0]
      dsimp only
      rw [plotFallbacks, strategyStep2, hcoord]
      dsimp only
      rw [hLoc]
      rfl
    rw [hrun]
    exact ⟨by decide, rr, rfl, rfl, rfl⟩

/-- An address-match response that succeeds with no candidates. -/
def amEmptyResp : AMResponse := { status := "success", data := some (AMData.arr []) }

def rowExactLoc : UprnsRow :=
  { uprn := some "u9", address := some "12 Foo Road",
    addressParts := some { primary := some "12", street := some "Foo Road" } }

def rowSameStreetLoc : UprnsRow :=
  { uprn := some "u7", address := some "14 Foo Road",
    addressParts := some { primary := some "14", street := some "Foo Road" } }

def apiLocExact : PlotApi :=
  { addressMatch := fun _ => Except.ok amEmptyResp,
    uprnTitle := fun _ => Except.ok uprnTitleRespOK,
    title := fun _ => Except.ok titleRespOK,
    uprnsLocation := fun _ _ => Except.ok
      { status := "success", data := some [rowExactLoc] },
    uprnsPostcode := fun _ => Except.error errNoCode,
    dist := fun _ _ _ _ => 0 }

def apiLocSameStreet : PlotApi :=
  { addressMatch := fun _ => Except.ok amEmptyResp,
    uprnTitle := fun _ => Except.ok uprnTitleRespOK,
    title := fun _ => Except.ok titleRespOK,
    uprnsLocation := fun _ _ => Except.ok
      { status := "success", data := some [rowSameStreetLoc] },
    uprnsPostcode := fun _ => Except.error errNoCode,
    dist := fun _ _ _ _ => 0 }

def inputLoc : PlotInput :=
  { address := "12 Foo Road", streetName := some "Foo Road",
    doorNumber := some "12", coordinates := some ⟨515, -1⟩ }

/-- Witness for C4: concrete runs for the exact-match case and the
    same-street fallback case. -/
theorem C4_exact_vs_fallback_tagging_witness :
    ((getPlotSizeAcres apiLocExact 0 TTLCache.empty inputLoc).2.calls.countP
        PDCall.isUprnTitle = 1 ∧
      ∃ r, (getPlotSizeAcres apiLocExact 0 TTLCache.empty inputLoc).1 =
          Except.ok r ∧
        r.method = some PlotMethod.addressMatchUprn ∧ r.uprn = some "u9") ∧
    (∃ r, (getPlotSizeAcres apiLocSameStreet 0 TTLCache.empty inputLoc).1 =
        Except.ok r ∧
      r.method = some PlotMethod.uprnsLocation ∧ r.uprn = some "u7") := by
  have hA := (C4_exact_vs_fallback_tagging apiLocExact 0 TTLCache.empty
      inputLoc amEmptyResp 515 (-1) _ [rowExactLoc]
      (by decide) rfl rfl rfl (by decide) rfl rfl rfl (by decide)).1
      rowExactLoc [] "u9" "T1" titleRespOK (by decide) rfl (by decide) rfl
  have hB := (C4_exact_vs_fallback_tagging apiLocSameStreet 0 TTLCache.empty
      inputLoc amEmptyResp 515 (-1) _ [rowSameStreetLoc]
      (by decide) rfl rfl rfl (by decide) rfl rfl rfl (by decide)).2
      rowSameStreetLoc [] "u7" "T1" titleRespOK (by decide) (by decide) rfl
      (by decide) rfl
  exact ⟨⟨hA.2.1, hA.2.2⟩, hB.2⟩

/-- C5 counterexample to "never throws": an upstream failure whose error
    code is the literal key-missing message is rethrown by the first
    strategy and rejects the whole call. -/
theorem C5_throw_counterexample :
    (getPlotSizeAcres apiKeyCodeErr 0 TTLCache.empty inputSimple).1 =
      Except.error
        { message := "boom",
          code := some "PropertyData API key is not configured" } := by
  decide

/-- C5 (amended): provided no caught strategy-1 error carries, as its
    upstream code, the literal key-missing message (the one condition the
    first catch block rethrows on), getPlotSizeAcres always resolves with
    a result instead of throwing; on a cold cache a result with no method
    tag is exactly the fully-null base object; and a uprn-title failure of
    any kind — including the expected no-title code 2101 — is treated as
    "no title", advancing the cascade to the next candidate or strategy. -/
theorem C5_error_containment (api : PlotApi) (now : Nat)
    (c : TTLCache PlotSizeResult) (input : PlotInput)
    (h1 : ∀ e, api.addressMatch input.address = Except.error e →
      jsStringOfCode e.code ≠ "PropertyData API key is not configured")
    (h2 : ∀ t e, api.title t = Except.error e →
      jsStringOfCode e.code ≠ "PropertyData API key is not configured") :
    (∃ r st', getPlotSizeAcres api now c input = (Except.ok r, st')) ∧
    (∀ r st', getPlotSizeAcres api now c input = (Except.ok r, st') →
      (TTLCache.get
          (if input.bustCache then c.delete (plotCacheKey input) else c)
          now (plotCacheKey input)).1 = none →
      r.method = none → r = basePlotResult) ∧
    (∀ u e, api.uprnTitle u = Except.error e → uprnTitleValue api u = none) := by
  rcases hget : TTLCache.get
      (if input.bustCache then c.delete (plotCacheKey input) else c)
      now (plotCacheKey input) with ⟨o, c2⟩
  have hcases : (∃ v, o = some v ∧
      getPlotSizeAcres api now c input = (Except.ok v, ⟨c2, []⟩)) ∨
      (o = none ∧ ∃ r st', getPlotSizeAcres api now c input =
        (Except.ok r, st') ∧ (r.method = none → r = basePlotResult)) := by
    cases o with
    | some v =>
        left
        refine ⟨v, rfl, ?_⟩
        simp only [getPlotSizeAcres]
        rw [hget]
    | none =>
        right
        refine ⟨rfl, ?_⟩
        rcases hAM : tryAddressMatch api now (plotCacheKey input)
            input.address ⟨c2, []⟩ with ⟨outA, stA⟩
        cases outA with
        | ok oA =>
            cases oA with
            | some r =>
                refine ⟨r, stA, ?_, ?_⟩
                · simp only [getPlotSizeAcres]
                  rw [hget]
                  dsimp only
                  rw [hAM]
                · intro hnone
                  have hm := (tryAddressMatch_ok_some hAM).1
                  rw [hnone] at hm
                  cases hm
            | none =>
                obtain ⟨r, st', hpf, hcache, hbase⟩ :=
                  plotFallbacks_spec api now (plotCacheKey input) input stA
                refine ⟨r, st', ?_, hbase⟩
                simp only [getPlotSizeAcres]
                rw [hget]
                dsimp only
                rw [hAM]
                dsimp only
                exact hpf
        | error e =>
            have hne : jsStringOfCode e.code ≠
                "PropertyData API key is not configured" := by
              rcases tryAddressMatch_error hAM with hs | ⟨t, hs⟩
              · exact h1 e hs
              · exact h2 t e hs
            obtain ⟨r, st', hpf, hcache, hbase⟩ :=
              plotFallbacks_spec api now (plotCacheKey input) input stA
            refine ⟨r, st', ?_, hbase⟩
            simp only [getPlotSizeAcres]
            rw [hget]
            dsimp only
            rw [hAM]
            dsimp only
            rw [if_neg hne]
            exact hpf
  refine ⟨?_, ?_, ?_⟩
  · rcases hcases with ⟨v, _, hr⟩ | ⟨_, r, st', hr, _⟩
    · exact ⟨v, _, hr⟩
    · exact ⟨r, st', hr⟩
  · intro r st' hr hmiss hnone
    rcases hcases with ⟨v, ho, _⟩ | ⟨_, r2, st2, hr2, hbase⟩
    · simp [ho] at hmiss
    · rw [hr] at hr2
      rw [Prod.mk.injEq] at hr2
      have : r2 = r := by
        have := hr2.1
        injection this with h
        exact h.symm
      rw [← this]
      exact hbase (by rw [this, hnone])
  · intro u e he
    simp [uprnTitleValue, he]

/-- Witness for C5: on an upstream where every endpoint fails with a
    code-less error (and uprn-title with code 2101), the cascade resolves
    with the fully-null base result instead of throwing. -/
theorem C5_error_containment_witness :
    (∃ r st', getPlotSizeAcres apiAllFail 0 TTLCache.empty inputSimple =
      (Except.ok r, st')) ∧
    uprnTitleValue apiAllFail "u1" = none := by
  have h := C5_error_containment apiAllFail 0 TTLCache.empty inputSimple
    (by
      intro e he
      simp [apiAllFail] at he
      subst he
      decide)
    (by
      intro t e he
      simp [apiAllFail] at he
      subst he
      decide)
  exact ⟨h.1, h.2.2 "u1" { message := "no title", code := some "2101" } rfl⟩

/-- A cache hit with the bust flag off returns the stored value with no
    provider call and no state change. -/
theorem getPlotSizeAcres_cache_hit (api : PlotApi) (now : Nat)
    (c : TTLCache PlotSizeResult) (input : PlotInput) (v : PlotSizeResult)
    (hbust : input.bustCache = false)
    (hhit : TTLCache.get c now (plotCacheKey input) = (some v, c)) :
    getPlotSizeAcres api now c input = (Except.ok v, ⟨c, []⟩) := by
  simp only [getPlotSizeAcres, hbust, Bool.false_eq_true, if_false]
  rw [hhit]

/-- C10: a run of getPlotSizeAcres that resolves (from a cold cache for
    its key) writes its result — the fully-null result of an exhausted
    cascade exactly like a successful one — under the request key with
    the full 30-day TTL, and every later call with the same inputs and no
    bust flag, at any time up to that expiry, returns the cached result
    with no provider call at all, whatever the provider would answer. -/
theorem C10_negative_result_cached (api : PlotApi) (now : Nat)
    (c : TTLCache PlotSizeResult) (input : PlotInput) (r : PlotSizeResult)
    (st1 : PlotSt)
    (hmiss : (TTLCache.get
        (if input.bustCache then c.delete (plotCacheKey input) else c)
        now (plotCacheKey input)).1 = none)
    (hrun : getPlotSizeAcres api now c input = (Except.ok r, st1)) :
    st1.cache.findEntry (plotCacheKey input) =
      some ⟨r, now + TTL_PLOT_SIZE * 1000⟩ ∧
    ∀ (api2 : PlotApi) (now2 : Nat), now2 ≤ now + TTL_PLOT_SIZE * 1000 →
      getPlotSizeAcres api2 now2 st1.cache { input with bustCache := false } =
        (Except.ok r, ⟨st1.cache, []⟩) := by
  rcases hget : TTLCache.get
      (if input.bustCache then c.delete (plotCacheKey input) else c)
      now (plotCacheKey input) with ⟨o, c2⟩
  have ho : o = none := by rw [hget] at hmiss; exact hmiss
  subst ho
  simp only [getPlotSizeAcres] at hrun
  rw [hget] at hrun
  dsimp only at hrun
  rcases hAM : tryAddressMatch api now (plotCacheKey input)
      input.address ⟨c2, []⟩ with ⟨outA, stA⟩
  rw [hAM] at hrun
  have hcache : st1.cache =
      TTLCache.set c2 now (plotCacheKey input) r TTL_PLOT_SIZE := by
    cases outA with
    | ok oA =>
        cases oA with
        | some r0 =>
            dsimp only at hrun
            rw [Prod.mk.injEq] at hrun
            obtain ⟨hre, hse⟩ := hrun
            injection hre with hre
            subst hre
            subst hse
            exact (tryAddressMatch_ok_some hAM).2
        | none =>
            dsimp only at hrun
            obtain ⟨r2, st2, heq, hc, _⟩ :=
              plotFallbacks_spec api now (plotCacheKey input) input stA
            rw [heq, Prod.mk.injEq] at hrun
            obtain ⟨hre, hse⟩ := hrun
            injection hre with hre
            subst hre
            subst hse
            rw [hc, tryAddressMatch_no_result hAM (by simp)]
    | error e =>
        dsimp only at hrun
        by_cases hcnd : jsStringOfCode e.code =
            "PropertyData API key is not configured"
        · rw [if_pos hcnd, Prod.mk.injEq] at hrun
          exact absurd hrun.1 (by simp)
        · rw [if_neg hcnd] at hrun
          obtain ⟨r2, st2, heq, hc, _⟩ :=
            plotFallbacks_spec api now (plotCacheKey input) input stA
          rw [heq, Prod.mk.injEq] at hrun
          obtain ⟨hre, hse⟩ := hrun
          injection hre with hre
          subst hre
          subst hse
          rw [hc, tryAddressMatch_no_result hAM (by simp)]
  have hfind : st1.cache.findEntry (plotCacheKey input) =
      some ⟨r, now + TTL_PLOT_SIZE * 1000⟩ := by
    rw [hcache]
    exact set_findEntry _ _ _ _ _
  refine ⟨hfind, ?_⟩
  intro api2 now2 hle
  have hkeyeq : plotCacheKey { input with bustCache := false } =
      plotCacheKey input := rfl
  refine getPlotSizeAcres_cache_hit api2 now2 st1.cache
    { input with bustCache := false } r rfl ?_
  rw [hkeyeq]
  exact get_of_findEntry_live now2 hfind
    (by show ¬ now2 > now + TTL_PLOT_SIZE * 1000; omega)

/-- Witness for C10: the exhausted cascade caches the all-null result for
    30 days; a later call against an arbitrary (still failing) provider
    returns it with an empty call trace. -/
theorem C10_negative_result_cached_witness :
    (getPlotSizeAcres apiAllFail 100 TTLCache.empty
        inputSimple).2.cache.findEntry (plotCacheKey inputSimple) =
      some ⟨basePlotResult, 100 + TTL_PLOT_SIZE * 1000⟩ ∧
    getPlotSizeAcres apiAllFail 200
        (getPlotSizeAcres apiAllFail 100 TTLCache.empty inputSimple).2.cache
        { inputSimple with bustCache := false } =
      (Except.ok basePlotResult,
       ⟨(getPlotSizeAcres apiAllFail 100 TTLCache.empty
          inputSimple).2.cache, []⟩) := by
  have h := C10_negative_result_cached apiAllFail 100 TTLCache.empty
    inputSimple basePlotResult
    (getPlotSizeAcres apiAllFail 100 TTLCache.empty inputSimple).2
    (by decide) (by decide)
  exact ⟨h.1, h.2 apiAllFail 200 (by norm_num [TTL_PLOT_SIZE])⟩

/-! ### Stable-sort lemmas and the attended-schools theorems -/

theorem mem_insertLe {α : Type} (le : α → α → Bool) (x : α) :
    ∀ (l : List α) (a : α), a ∈ insertLe le x l ↔ a = x ∨ a ∈ l := by
  intro l
  induction l with
  | nil => intro a; simp [insertLe]
  | cons y ys ih =>
      intro a
      rw [insertLe]
      by_cases h : le y x
      · rw [if_pos h]
        simp only [List.mem_cons, ih]
        tauto
      · rw [if_neg h]
        simp [List.mem_cons]

theorem insertLe_pairwise {α : Type} {le : α → α → Bool}
    (htrans : ∀ a b c, le a b = true → le b c = true → le a c = true)
    (htot : ∀ a b, le a b = true ∨ le b a = true) (x : α) :
    ∀ {l : List α}, l.Pairwise (fun a b => le a b = true) →
      (insertLe le x l).Pairwise (fun a b => le a b = true) := by
  intro l
  induction l with
  | nil => intro _; simp [insertLe]
  | cons y ys ih =>
      intro hp
      rw [List.pairwise_cons] at hp
      obtain ⟨hy, hys⟩ := hp
      rw [insertLe]
      by_cases h : le y x
      · rw [if_pos h, List.pairwise_cons]
        refine ⟨?_, ih hys⟩
        intro b hb
        rcases (mem_insertLe le x ys b).mp hb with rfl | hb2
        · exact h
        · exact hy b hb2
      · rw [if_neg h]
        have hxy : le x y = true := (htot y x).resolve_left h
        rw [List.pairwise_cons]
        refine ⟨?_, List.pairwise_cons.mpr ⟨hy, hys⟩⟩
        intro b hb
        rcases List.mem_cons.mp hb with rfl | hb2
        · exact hxy
        · exact htrans x y b hxy (hy b hb2)

theorem insertLe_perm {α : Type} (le : α → α → Bool) (x : α) :
    ∀ l : List α, (insertLe le x l).Perm (x :: l) := by
  intro l
  induction l with
  | nil => simp [insertLe]
  | cons y ys ih =>
      rw [insertLe]
      by_cases h : le y x
      · rw [if_pos h]
        exact (ih.cons y).trans (List.Perm.swap x y ys)
      · rw [if_neg h]

theorem foldl_insertLe_pairwise {α : Type} {le : α → α → Bool}
    (htrans : ∀ a b c, le a b = true → le b c = true → le a c = true)
    (htot : ∀ a b, le a b = true ∨ le b a = true) :
    ∀ (l acc : List α), acc.Pairwise (fun a b => le a b = true) →
      (l.foldl (fun a x => insertLe le x a) acc).Pairwise
        (fun a b => le a b = true) := by
  intro l
  induction l with
  | nil => intro acc h; simpa using h
  | cons x xs ih =>
      intro acc h
      exact ih _ (insertLe_pairwise htrans htot x h)

theorem foldl_insertLe_perm {α : Type} (le : α → α → Bool) :
    ∀ (l acc : List α),
      (l.foldl (fun a x => insertLe le x a) acc).Perm (l ++ acc) := by
  intro l
  induction l with
  | nil => intro acc; simp
  | cons x xs ih =>
      intro acc
      refine (ih (insertLe le x acc)).trans ?_
      exact (List.Perm.append_left xs (insertLe_perm le x acc)).trans
        List.perm_middle

theorem stableSortBy_pairwise {α : Type} {le : α → α → Bool}
    (htrans : ∀ a b c, le a b = true → le b c = true → le a c = true)
    (htot : ∀ a b, le a b = true ∨ le b a = true) (l : List α) :
    (stableSortBy le l).Pairwise (fun a b => le a b = true) :=
  foldl_insertLe_pairwise htrans htot l [] (by simp)

theorem stableSortBy_perm {α : Type} (le : α → α → Bool) (l : List α) :
    (stableSortBy le l).Perm l := by
  simpa using foldl_insertLe_perm le l []

theorem sortByPercentageDesc_sorted (l : List AttendedSchool) :
    (sortByPercentageDesc l).Pairwise
      (fun x y => y.percentage ≤ x.percentage) := by
  have h := @stableSortBy_pairwise AttendedSchool
    (fun a b => decide (b.percentage ≤ a.percentage))
    (fun a b c h1 h2 => by
      rw [decide_eq_true_iff] at h1 h2 ⊢
      exact le_trans h2 h1)
    (fun a b => by
      rw [decide_eq_true_iff, decide_eq_true_iff]
      exact le_total b.percentage a.percentage)
    l
  exact h.imp (fun hab => by rwa [decide_eq_true_iff] at hab)

theorem sortByPercentageDesc_perm (l : List AttendedSchool) :
    (sortByPercentageDesc l).Perm l :=
  stableSortBy_perm _ l

theorem ofstedLookup_mem (k v : String) (h : ofstedLookup k = some v) :
    v ∈ ["Outstanding", "Good", "Requires Improvement", "Inadequate"] := by
  rw [ofstedLookup] at h
  obtain ⟨p, hp, hv⟩ := Option.map_eq_some'.mp h
  have hmem := List.mem_of_find?_eq_some hp
  subst hv
  simp only [OFSTED_RATINGS, List.mem_cons, List.mem_singleton] at hmem
  rcases hmem with rfl | rfl | rfl | rfl | h0
  · simp
  · simp
  · simp
  · simp
  · simp at h0

theorem parseAttendedSchool_rating (raw : RawAttended) (phase : SchoolPhase) :
    (parseAttendedSchool raw phase).ofstedRating ∈
      [none, some "Outstanding", some "Good", some "Requires Improvement",
       some "Inadequate"] := by
  rw [parseAttendedSchool]
  dsimp only
  cases jsTruthyStr (raw.School.bind fun sc => sc.OfstedRatingNumber) with
  | none => simp
  | some k =>
      cases h2 : ofstedLookup k with
      | none => simp [h2]
      | some v =>
          have hv := ofstedLookup_mem k v h2
          simp only [List.mem_cons, List.mem_singleton] at hv
          rcases hv with rfl | rfl | rfl | rfl | hv0
          · simp [h2]
          · simp [h2]
          · simp [h2]
          · simp [h2]
          · simp at hv0

/-- C9: parseAttendedSchoolsResponse extracts the area label and the two
    embedded array literals by pattern-matching the three-string-argument
    showAttendedSchoolsData call signature in the envelope code string;
    any body without a usable envelope, whose code does not match the
    signature, or whose embedded arrays fail to decode, parses to null
    rather than raising; on success the area label is the first capture,
    both phase lists are exactly the decoded records mapped through
    parseAttendedSchool (a permutation) and sorted by attendance
    percentage descending, and every rating is null or drawn from the
    fixed 4-value Ofsted table. -/
theorem C9_attended_schools_parse (envelope : String → Option String)
    (decodeArr : String → Option (List RawAttended)) (body : String) :
    ((envelope body = none →
        parseAttendedSchoolsResponse envelope decodeArr body = none) ∧
     (∀ d, envelope body = some d → matchShowAttended d = none →
        parseAttendedSchoolsResponse envelope decodeArr body = none) ∧
     (∀ d a p2 p3, envelope body = some d →
        matchShowAttended d = some (a, p2, p3) →
        decodeArr p2 = none ∨ decodeArr p3 = none →
        parseAttendedSchoolsResponse envelope decodeArr body = none)) ∧
    (∀ d a p2 p3 pr sr, envelope body = some d →
      matchShowAttended d = some (a, p2, p3) →
      decodeArr p2 = some pr → decodeArr p3 = some sr →
      ∃ res, parseAttendedSchoolsResponse envelope decodeArr body = some res ∧
        res.areaName = a ∧
        res.primarySchools.Perm
          (pr.map (fun r => parseAttendedSchool r SchoolPhase.primary)) ∧
        res.secondarySchools.Perm
          (sr.map (fun r => parseAttendedSchool r SchoolPhase.secondary)) ∧
        res.primarySchools.Pairwise
          (fun x y => y.percentage ≤ x.percentage) ∧
        res.secondarySchools.Pairwise
          (fun x y => y.percentage ≤ x.percentage) ∧
        ∀ sch ∈ res.primarySchools ++ res.secondarySchools,
          sch.ofstedRating ∈ [none, some "Outstanding", some "Good",
            some "Requires Improvement", some "Inadequate"]) := by
  refine ⟨⟨?_, ?_, ?_⟩, ?_⟩
  · intro h
    rw [parseAttendedSchoolsResponse, h]
  · intro d hd hmatch
    rw [parseAttendedSchoolsResponse, hd]
    dsimp only
    rw [hmatch]
  · intro d a p2 p3 hd hmatch hdec
    rw [parseAttendedSchoolsResponse, hd]
    dsimp only
    rw [hmatch]
    dsimp only
    rcases hdec with hdec | hdec
    · rw [hdec]
    · rw [hdec]
      rcases decodeArr p2 with _ | l
      · rfl
      · rfl
  · intro d a p2 p3 pr sr hd hmatch hp2 hp3
    have heq : parseAttendedSchoolsResponse envelope decodeArr body =
        some { areaName := a,
               primarySchools := sortByPercentageDesc
                 (pr.map (fun r => parseAttendedSchool r SchoolPhase.primary)),
               secondarySchools := sortByPercentageDesc
                 (sr.map (fun r => parseAttendedSchool r SchoolPhase.secondary)) } := by
      rw [parseAttendedSchoolsResponse, hd]
      dsimp only
      rw [hmatch]
      dsimp only
      rw [hp2, hp3]
    refine ⟨_, heq, rfl, sortByPercentageDesc_perm _,
      sortByPercentageDesc_perm _, sortByPercentageDesc_sorted _,
      sortByPercentageDesc_sorted _, ?_⟩
    intro sch hsch
    dsimp only at hsch
    rcases List.mem_append.mp hsch with hs | hs
    · have hmm := (sortByPercentageDesc_perm _).mem_iff.mp hs
      obtain ⟨r, _, rfl⟩ := List.mem_map.mp hmm
      exact parseAttendedSchool_rating r SchoolPhase.primary
    · have hmm := (sortByPercentageDesc_perm _).mem_iff.mp hs
      obtain ⟨r, _, rfl⟩ := List.mem_map.mp hmm
      exact parseAttendedSchool_rating r SchoolPhase.secondary

def sqs : String := String.mk [squote]

def sampleAttendedCode : String :=
  "foo(); showAttendedSchoolsData(" ++ sqs ++ "Barnet 005C" ++ sqs ++ ", " ++
    sqs ++ "[1,2]" ++ sqs ++ ", " ++ sqs ++ "[3]" ++ sqs ++ ");"

def sampleEnvelope : String → Option String := fun b =>
  if b == "body" then some sampleAttendedCode else none

def sampleSchoolA : RawAttended :=
  { Urn := some "urn1", Percentage := some 20,
    School := some
      { Name := some "School A", OfstedRatingNumber := some "2",
        AdmissionsPolicy := some "selective" } }

def sampleSchoolB : RawAttended :=
  { Urn := some "urn2", Percentage := some 30,
    School := some { Name := some "School B" } }

def sampleDecode : String → Option (List RawAttended) := fun s =>
  if s == "[1,2]" then some [sampleSchoolA, sampleSchoolB]
  else if s == "[3]" then some [] else none

/-- Witness for C9: a concrete envelope whose code string carries the call
    signature parses to the area label with a percentage-descending
    primary list; a body without a usable envelope parses to null. -/
theorem C9_attended_schools_parse_witness :
    (∃ res, parseAttendedSchoolsResponse sampleEnvelope sampleDecode "body" =
        some res ∧
      res.areaName = "Barnet 005C" ∧
      res.primarySchools.Pairwise (fun x y => y.percentage ≤ x.percentage)) ∧
    parseAttendedSchoolsResponse sampleEnvelope sampleDecode "other" = none := by
  have h := (C9_attended_schools_parse sampleEnvelope sampleDecode "body").2
    sampleAttendedCode "Barnet 005C" "[1,2]" "[3]"
    [sampleSchoolA, sampleSchoolB] []
    (by decide) (by decide) (by decide) (by decide)
  obtain ⟨res, h1, h2, _, _, h5, _, _⟩ := h
  have hf := (C9_attended_schools_parse sampleEnvelope sampleDecode "other").1.1
    (by decide)
  exact ⟨⟨res, h1, h2, h5⟩, hf⟩

end PropertyAnalyzer
